import Mathlib

/-!
Verification development for the weekly_digest_bot repository.

Shallow embedding of the persistence layer (`src/db.py`), the AI client
(`src/ai_client.py`) and the classification engine
(`src/services/classification_service.py`).

Modelling conventions:
* SQLite rows become Lean structures; the `chat_messages` table is the list
  `Db.messages` in rowid order, `message_threads` is `Db.threads`.
* SQLite's three-valued BOOLEAN column `processed` (NULL / 0 / 1) is
  `Option Bool`: an explicit NULL bind from Python `None` is `none`.
  `WHERE processed = FALSE` matches only `some false` (NULL = FALSE is NULL
  in SQL, hence no match), exactly as sqlite3 behaves.
* Python strings are embedded as `List Char` where character-level
  processing matters (strip, slicing, regex scanning), as `String` where
  they are only stored or compared.
* Timestamps are `Nat` (seconds); `datetime('now', '-d days')` windows are
  expressed with explicit `now`/`days` parameters.
* Confidences are `ℚ`; the Python float literal `0.6` is `3/5` (the
  comparison sites only ever compare against this design constant).
* Network and other I/O is exogenous: AI backend outcomes are oracle
  inputs (`Except` values / response char-lists), and `json.loads` from the
  Python standard library is modelled as an oracle input of type
  `Option JValue` (`none` = `json.JSONDecodeError`).
-/

namespace WeeklyDigestBot

/-! ### Kernel-reducible rational literals

Float constants of the sources (0.5, 0.6, 0.7, 0.8) and parsed decimal
strings are embedded as exact rationals.  Mathlib's rational arithmetic
normalises through `Nat.gcd`, which the kernel cannot unfold, so
evaluation-friendly literals are built directly with a structurally
recursive gcd. -/

/-- Structurally recursive Euclidean gcd (`fuel ≥ a` makes it total). -/
def fuelGcd : Nat → Nat → Nat → Nat
  | 0, _, b => b
  | fuel + 1, a, b =>
      match a with
      | 0 => b
      | a' + 1 => fuelGcd fuel (b % (a' + 1)) (a' + 1)

theorem fuelGcd_eq (fuel : Nat) : ∀ a b : Nat, a ≤ fuel →
    fuelGcd fuel a b = Nat.gcd a b := by
  induction fuel with
  | zero =>
      intro a b ha
      interval_cases a
      simp [fuelGcd]
  | succ f ih =>
      intro a b ha
      match a with
      | 0 => simp [fuelGcd]
      | a' + 1 =>
          rw [fuelGcd, ih (b % (a' + 1)) (a' + 1)
            (Nat.le_of_lt_succ (Nat.lt_of_lt_of_le
              (Nat.mod_lt b (Nat.succ_pos a')) ha))]
          exact (Nat.gcd_succ a' b).symm

/-- Numerator of the normalised `n / d`. -/
def ratLitNum (n : Int) (d : Nat) : Int :=
  if 0 ≤ n then ((n.natAbs / fuelGcd (n.natAbs + 1) n.natAbs d : Nat) : Int)
  else -((n.natAbs / fuelGcd (n.natAbs + 1) n.natAbs d : Nat) : Int)

/-- Denominator of the normalised `n / d`. -/
def ratLitDen (n : Int) (d : Nat) : Nat :=
  d / fuelGcd (n.natAbs + 1) n.natAbs d

theorem ratLitDen_nz (n : Int) (d : Nat) (hd : d ≠ 0) : ratLitDen n d ≠ 0 := by
  have hg : fuelGcd (n.natAbs + 1) n.natAbs d = Nat.gcd n.natAbs d :=
    fuelGcd_eq _ _ _ (Nat.le_succ _)
  have hgpos : 0 < Nat.gcd n.natAbs d :=
    Nat.gcd_pos_of_pos_right _ (Nat.pos_of_ne_zero hd)
  have : 0 < ratLitDen n d := by
    rw [ratLitDen, hg]
    exact Nat.div_pos (Nat.le_of_dvd (Nat.pos_of_ne_zero hd)
      (Nat.gcd_dvd_right n.natAbs d)) hgpos
  omega

theorem ratLit_reduced (n : Int) (d : Nat) (hd : d ≠ 0) :
    (ratLitNum n d).natAbs.Coprime (ratLitDen n d) := by
  have hg : fuelGcd (n.natAbs + 1) n.natAbs d = Nat.gcd n.natAbs d :=
    fuelGcd_eq _ _ _ (Nat.le_succ _)
  have hgpos : 0 < Nat.gcd n.natAbs d :=
    Nat.gcd_pos_of_pos_right _ (Nat.pos_of_ne_zero hd)
  have habs : (ratLitNum n d).natAbs =
      n.natAbs / fuelGcd (n.natAbs + 1) n.natAbs d := by
    rw [ratLitNum]
    split
    · exact Int.natAbs_ofNat _
    · rw [Int.natAbs_neg]
      exact Int.natAbs_ofNat _
  rw [habs, ratLitDen, hg]
  exact Nat.coprime_div_gcd_div_gcd hgpos

/-- The exact rational `n / d`, built as a normalised `Rat` structure whose
fields the kernel can evaluate. -/
def ratLit (n : Int) (d : Nat) : ℚ :=
  if hd : d = 0 then 0
  else ⟨ratLitNum n d, ratLitDen n d, ratLitDen_nz n d hd, ratLit_reduced n d hd⟩

/-- `ratLit` agrees with rational division (sanity of the encoding). -/
theorem ratLit_eq (n : Int) (d : Nat) : ratLit n d = (n : ℚ) / (d : ℚ) := by
  rw [ratLit]
  split
  · rename_i hd
    subst hd
    simp
  · rename_i hd
    rw [Rat.mk'_eq_divInt, Rat.divInt_eq_div]
    have hg : fuelGcd (n.natAbs + 1) n.natAbs d = Nat.gcd n.natAbs d :=
      fuelGcd_eq _ _ _ (Nat.le_succ _)
    have hgpos : 0 < Nat.gcd n.natAbs d :=
      Nat.gcd_pos_of_pos_right _ (Nat.pos_of_ne_zero hd)
    have hquot : n.natAbs / Nat.gcd n.natAbs d * Nat.gcd n.natAbs d
        = n.natAbs := Nat.div_mul_cancel (Nat.gcd_dvd_left n.natAbs d)
    have hInt : ratLitNum n d * (Nat.gcd n.natAbs d : ℤ) = n := by
      rw [ratLitNum, hg]
      split
      · rename_i hn
        calc ((n.natAbs / Nat.gcd n.natAbs d : Nat) : ℤ) *
              (Nat.gcd n.natAbs d : ℤ)
            = ((n.natAbs / Nat.gcd n.natAbs d * Nat.gcd n.natAbs d : Nat) : ℤ) := by
              exact_mod_cast rfl
          _ = ((n.natAbs : Nat) : ℤ) := by rw [hquot]
          _ = n := Int.natAbs_of_nonneg hn
      · rename_i hn
        have hn' : n ≤ 0 := le_of_lt (not_le.mp hn)
        calc -((n.natAbs / Nat.gcd n.natAbs d : Nat) : ℤ) *
              (Nat.gcd n.natAbs d : ℤ)
            = -(((n.natAbs / Nat.gcd n.natAbs d * Nat.gcd n.natAbs d : Nat) : ℤ)) := by
              push_cast
              ring
          _ = -((n.natAbs : Nat) : ℤ) := by rw [hquot]
          _ = n := by rw [Int.ofNat_natAbs_of_nonpos hn']; ring
    have hnum : ((ratLitNum n d : Int) : ℚ) * (Nat.gcd n.natAbs d : ℚ)
        = (n : ℚ) := by
      exact_mod_cast congrArg (fun z : ℤ => (z : ℚ)) hInt
    have hden : ((ratLitDen n d : Nat) : ℚ) * (Nat.gcd n.natAbs d : ℚ)
        = (d : ℚ) := by
      rw [ratLitDen, hg]
      exact_mod_cast congrArg (fun k : Nat => (k : ℚ))
        (Nat.div_mul_cancel (Nat.gcd_dvd_right n.natAbs d))
    have hgQ : (Nat.gcd n.natAbs d : ℚ) ≠ 0 := by
      exact_mod_cast Nat.pos_iff_ne_zero.mp hgpos
    rw [← hnum, ← hden]
    rw [mul_div_mul_right _ _ hgQ]
    norm_cast

/-- Python truthiness of an optional integer (`None` and `0` are falsy). -/
def pyTruthyNat : Option Nat → Bool
  | none => false
  | some n => n ≠ 0

/-- Python truthiness of an optional string (`None` and `""` are falsy). -/
def pyTruthyStr : Option String → Bool
  | none => false
  | some s => !s.isEmpty

/-- Python `a or b` for an optional string with `b` as fallback
(`None` and the empty string both fall through to `b`). -/
def pyOrStr (a : Option String) (b : String) : String :=
  match a with
  | none => b
  | some s => if s.isEmpty then b else s

/-- Python `a or b` for an optional timestamp
(`message_data.get('created_at') or datetime.now()`): `None` and `0` fall
through to the fallback. -/
def pyOrNat (a : Option Nat) (b : Nat) : Nat :=
  match a with
  | none => b
  | some n => if n = 0 then b else n

/-! ## Data model (tables of `src/db.py::_init_db`) -/

/-- A row of the `chat_messages` table (db.py lines 63-76).
The AUTOINCREMENT surrogate `id` column is not modelled (no claim uses it);
rows are kept in rowid order in `Db.messages`.  `UNIQUE(message_id)` is the
only uniqueness constraint of the table.  `topic_id` is modelled as `Nat`
(every ingestion site supplies one). -/
structure MessageRow where
  message_id : Nat
  topic_id : Nat
  thread_id : Option Nat
  parent_message_id : Option Nat
  classification_id : Option String
  message_text : String
  created_at : Nat
  processed : Option Bool
  deriving Repr, DecidableEq

/-- A row of the `message_threads` table (db.py lines 79-87). -/
structure ThreadRow where
  thread_id : Nat
  title : String
  classification_id : String
  created_at : Nat
  is_active : Bool
  deriving Repr, DecidableEq

/-- The persistent state touched by the claims: the `chat_messages` and
`message_threads` tables. -/
structure Db where
  messages : List MessageRow
  threads : List ThreadRow
  deriving Repr, DecidableEq

/-- The dictionary passed to `save_message` (keys read with `.get`, so every
field the caller may omit is an `Option`).  `message_id` and `topic_id` are
always supplied by the ingestion call sites. -/
structure MessageData where
  message_id : Nat
  topic_id : Nat
  thread_id : Option Nat
  parent_message_id : Option Nat
  classification_id : Option String
  message_text : String
  created_at : Option Nat
  processed : Option Bool
  deriving Repr, DecidableEq

/-! ## Message store operations (`src/db.py`) -/

/-- `save_message` (db.py lines 195-218): `INSERT OR REPLACE` into
`chat_messages`.  The REPLACE conflict target is the table's only unique
constraint `UNIQUE(message_id)`: any existing row with the same
`message_id` is deleted and the new row inserted (at the end, in rowid
order).  Every column is bound explicitly, so `processed` is bound to the
value of `message_data.get('processed')` — SQL `NULL` (here `none`) when
the key is absent; the column's `DEFAULT FALSE` never applies.
`ioError = true` models the `except` branch (sqlite error): the
transaction is rolled back and `0` is returned; on success the positive
`lastrowid` is returned (modelled as `1`). -/
def save_message (db : Db) (d : MessageData) (now : Nat) (ioError : Bool) :
    Db × Nat :=
  if ioError then (db, 0)
  else
    let row : MessageRow :=
      { message_id := d.message_id
        topic_id := d.topic_id
        thread_id := d.thread_id
        parent_message_id := d.parent_message_id
        classification_id := d.classification_id
        message_text := d.message_text
        created_at := pyOrNat d.created_at now
        processed := d.processed }
    ({ db with
        messages := db.messages.filter (fun r => r.message_id ≠ d.message_id)
          ++ [row] }, 1)

/-- `get_unprocessed_messages` (db.py lines 403-418):
`SELECT * FROM chat_messages WHERE processed = FALSE ORDER BY created_at ASC`.
The `WHERE` clause matches only rows whose `processed` column is exactly
`FALSE`; `NULL` rows are not matched.  Ordering is a stable sort on
`created_at` (ties keep rowid order). -/
def get_unprocessed_messages (db : Db) : List MessageRow :=
  List.insertionSort (fun a b => a.created_at ≤ b.created_at)
    (db.messages.filter (fun m => m.processed == some false))

/-- `update_message_thread` (db.py lines 380-401): sets `thread_id`
(and, when the Python-truthy check `if classification_id:` passes, also
`classification_id`) together with `processed = TRUE` on every row whose
`message_id` matches.  Returns whether any row was updated
(`cursor.rowcount > 0`). -/
def updRow (mid : Nat) (tid : Option Nat) (cls : Option String)
    (r : MessageRow) : MessageRow :=
  if r.message_id = mid then
    if pyTruthyStr cls then
      { r with thread_id := tid, classification_id := cls,
               processed := some true }
    else
      { r with thread_id := tid, processed := some true }
  else r

def update_message_thread (db : Db) (mid : Nat) (tid : Option Nat)
    (cls : Option String) : Db × Bool :=
  ({ db with messages := db.messages.map (updRow mid tid cls) },
   db.messages.any (fun r => r.message_id == mid))

/-- The rowid SQLite assigns to the next `message_threads` insert
(`INTEGER PRIMARY KEY`: one more than the largest existing rowid, `1` for
an empty table); always positive. -/
def Db.freshThreadId (db : Db) : Nat :=
  (db.threads.map (·.thread_id)).foldr max 0 + 1

/-- `create_thread` (db.py lines 326-341): inserts a new thread row and
returns its `lastrowid`.  (`now` supplies the `CURRENT_TIMESTAMP`
default; `is_active` defaults to TRUE.) -/
def create_thread (db : Db) (title : String) (classification_id : String)
    (now : Nat) : Db × Nat :=
  let tid := db.freshThreadId
  ({ db with threads := db.threads ++
      [{ thread_id := tid, title := title,
         classification_id := classification_id, created_at := now,
         is_active := true }] }, tid)

/-- `get_thread_by_id` (db.py lines 363-378). -/
def get_thread_by_id (db : Db) (tid : Nat) : Option ThreadRow :=
  db.threads.find? (fun t => t.thread_id == tid)

/-- Result shape of `get_message_thread_by_parent`. -/
structure ParentThread where
  thread_id : Nat
  classification_id : Option String
  deriving Repr, DecidableEq

/-- `get_message_thread_by_parent` (db.py lines 458-474):
`SELECT thread_id, classification_id FROM chat_messages WHERE message_id = ?
AND thread_id IS NOT NULL` — the first row whose `message_id` matches and
whose `thread_id` is non-NULL, or `None`. -/
def get_message_thread_by_parent (db : Db) (parentId : Nat) :
    Option ParentThread :=
  match db.messages.find?
      (fun m => m.message_id == parentId && m.thread_id ≠ none) with
  | some m =>
      match m.thread_id with
      | some t => some { thread_id := t, classification_id := m.classification_id }
      | none => none
  | none => none

/-- Thread record produced for the classification engine's context: thread
fields joined with the texts of member messages (the dict rows consumed by
the prompt builders via `thread['thread_id']` etc.). -/
structure ThreadInfo where
  thread_id : Nat
  title : String
  classification_id : String
  messages : List String
  deriving Repr, DecidableEq

/-- Modelled from the spec: `get_active_threads_with_messages_for_topic` is
called by `process_unprocessed_messages`
(classification_service.py line 38) but its definition is missing from the
repository sources (db.py only defines the un-scoped
`get_active_threads_with_messages`).  Following the spec's contract
"`get_active_with_messages(topic_id, days)` — returns threads annotated
with their member message texts within the window, scoped to a single
topic id": active threads having at least one member message in the given
topic, annotated with their member message texts in that topic within the
window. -/
def get_active_threads_with_messages_for_topic (db : Db) (topicId : Nat)
    (now days : Nat) : List ThreadInfo :=
  (db.threads.filter (fun t => t.is_active &&
      db.messages.any (fun m =>
        m.thread_id == some t.thread_id && m.topic_id == topicId))).map
    (fun t =>
      { thread_id := t.thread_id
        title := t.title
        classification_id := t.classification_id
        messages := (db.messages.filter (fun m =>
            m.thread_id == some t.thread_id && m.topic_id == topicId &&
            now ≤ m.created_at + days * 86400)).map (·.message_text) })

/-! ## Python string processing on `List Char` -/

/-- Python `str.isspace` characters relevant to `.strip()` /
regex `\s`. -/
def isPySpace (c : Char) : Bool :=
  c = ' ' || c = '\t' || c = '\n' || c = '\r' || c = '\x0b' || c = '\x0c'

/-- Python `str.strip()` with no arguments: remove leading and trailing
whitespace. -/
def pyStrip (l : List Char) : List Char :=
  ((l.dropWhile isPySpace).reverse.dropWhile isPySpace).reverse

/-- Python `str.startswith(p)`. -/
def pyStartsWith (l p : List Char) : Bool :=
  p.isPrefixOf l

/-- Python `str.endswith(p)`. -/
def pyEndsWith (l p : List Char) : Bool :=
  p.reverse.isPrefixOf l.reverse

/-- The shared response cleaning of `_parse_batch_sling_response` and
`_parse_batch_classification_response` (classification_service.py lines
320-326 and 363-369): strip, drop a leading `` ```json `` marker (7
characters), drop a trailing `` ``` `` marker (3 characters), strip
again. -/
def cleanResponse (response : List Char) : List Char :=
  let c1 := pyStrip response
  let c2 := if pyStartsWith c1 "```json".data then c1.drop 7 else c1
  let c3 := if pyEndsWith c2 "```".data then c2.take (c2.length - 3) else c2
  pyStrip c3

/-! ## JSON values

`json.loads` is Python standard-library code; its output on the cleaned
response is an oracle input of this type (`none` models
`json.JSONDecodeError`). -/

/-- A decoded Python/JSON value. -/
inductive JValue where
  | null : JValue
  | bool (b : Bool) : JValue
  | num (q : ℚ) : JValue
  | str (s : String) : JValue
  | arr (xs : List JValue) : JValue
  | obj (fields : List (String × JValue)) : JValue

/-- Dictionary lookup (`d[k]` / `d.get(k)`). -/
def jLookup (fields : List (String × JValue)) (k : String) : Option JValue :=
  (fields.find? (fun kv => kv.1 == k)).map (·.2)

/-- `k in d`. -/
def jHasKey (fields : List (String × JValue)) (k : String) : Bool :=
  fields.any (fun kv => kv.1 == k)

/-- Python `float(x)` on a decoded JSON value: numbers pass through, bools
coerce to 0/1, everything else raises (numeric strings, which `float`
would also accept, are not modelled — no call site feeds them). -/
def jToFloat : JValue → Option ℚ
  | .num q => some q
  | .bool b => some (if b then 1 else 0)
  | _ => none

/-- Extract a natural-number id from a decoded JSON value (a non-negative
integral number); other shapes yield `none`. -/
def jToNat : JValue → Option Nat
  | .num q => if q.den = 1 ∧ 0 ≤ q.num then some q.num.toNat else none
  | _ => none

/-- Python truthiness of a decoded JSON value (`bool(x)` /
`x if x else None`). -/
def jTruthy : JValue → Bool
  | .null => false
  | .bool b => b
  | .num q => q ≠ 0
  | .str s => !s.isEmpty
  | .arr xs => !xs.isEmpty
  | .obj fields => !fields.isEmpty

/-! ## Batch sling response parsing -/

/-- A validated entry of `_parse_batch_sling_response`.  The raw
`message_id` value is narrowed to `Nat` (it is only ever logged
downstream); `thread_id` is `none` when absent, null, zero or falsy
(`result['thread_id'] if result['thread_id'] else None`). -/
structure SlingResult where
  message_id : Nat
  related : Bool
  thread_id : Option Nat
  confidence : ℚ
  deriving Repr, DecidableEq

/-- Validation of one sling result item
(classification_service.py lines 334-349): items carrying all four keys
are coerced; any other dict item becomes the unrelated default. -/
def validateSlingItem (fields : List (String × JValue)) : Option SlingResult :=
  if jHasKey fields "message_id" && jHasKey fields "related" &&
      jHasKey fields "thread_id" && jHasKey fields "confidence" then
    match jToFloat ((jLookup fields "confidence").getD .null) with
    | some conf =>
        some { message_id :=
                 (jToNat ((jLookup fields "message_id").getD .null)).getD 0
               related := jTruthy ((jLookup fields "related").getD .null)
               thread_id :=
                 if jTruthy ((jLookup fields "thread_id").getD .null) then
                   jToNat ((jLookup fields "thread_id").getD .null)
                 else none
               confidence := conf }
    | none => none
  else
    some { message_id := 0, related := false, thread_id := none,
           confidence := 0 }

/-- The body of `_parse_batch_sling_response` after a successful JSON
decode; `none` models a runtime error (non-dict payload, non-list
`results`, non-dict item, un-floatable confidence) reaching the generic
`except` branch. -/
def extractSlingResults (v : JValue) : Option (List SlingResult) :=
  match v with
  | .obj fields =>
      match (jLookup fields "results").getD (.arr []) with
      | .arr items =>
          items.foldr (fun item acc =>
            match acc with
            | none => none
            | some rs =>
                match item with
                | .obj f =>
                    match validateSlingItem f with
                    | some r => some (r :: rs)
                    | none => none
                | _ => none) (some [])
      | _ => none
  | _ => none

/-- `_parse_batch_sling_response` (classification_service.py lines
317-358).  `decoded` is the oracle result of `json.loads` on the cleaned
response: on decode failure (`none`) the function returns `[]` (there is
no regex fallback on the sling path); a runtime error in the validation
loop also returns `[]`. -/
def parse_batch_sling_response (decoded : Option JValue) : List SlingResult :=
  match decoded with
  | none => []
  | some v => (extractSlingResults v).getD []

/-! ## Batch classification response parsing -/

/-- A validated entry of `_parse_batch_classification_response` /
`_parse_with_regex`.  A present-but-non-string `classification` value is
narrowed to `"other"` (downstream it only ever feeds the
`in ['goal', 'blocker']` membership test and the thread label, and a
non-string can never satisfy the membership test). -/
structure ClassificationResult where
  classification : String
  confidence : ℚ
  title : Option String
  deriving Repr, DecidableEq

/-- Validation of one classification result item (classification_service.py
lines 377-390): items carrying `message_index`, `classification` and
`confidence` are coerced; any other dict item becomes the safe default
`other` / confidence 0 / no title. -/
def validateClassificationItem (fields : List (String × JValue)) :
    Option ClassificationResult :=
  if jHasKey fields "message_index" && jHasKey fields "classification" &&
      jHasKey fields "confidence" then
    match jToFloat ((jLookup fields "confidence").getD .null) with
    | some conf =>
        some { classification :=
                 match jLookup fields "classification" with
                 | some (.str s) => s
                 | _ => "other"
               confidence := conf
               title :=
                 match jLookup fields "title" with
                 | some (.str s) => some s
                 | _ => none }
    | none => none
  else
    some { classification := "other", confidence := 0, title := none }

/-- The `sorted(results, key=lambda x: x.get('message_index', 0))` key:
items must be dicts with a numeric (or absent, defaulting to 0)
`message_index`; anything else raises at sort or access time. -/
def classificationSortKey (item : JValue) : Option ℚ :=
  match item with
  | .obj fields =>
      match jLookup fields "message_index" with
      | none => some 0
      | some (.num q) => some q
      | some _ => none
  | _ => none

/-- The body of `_parse_batch_classification_response` after a successful
JSON decode; `none` models a runtime error reaching the generic `except`
branch (which returns `[]`, not the regex fallback). -/
def extractClassificationResults (v : JValue) :
    Option (List ClassificationResult) :=
  match v with
  | .obj fields =>
      match (jLookup fields "results").getD (.arr []) with
      | .arr items =>
          if items.all (fun item => (classificationSortKey item).isSome) then
            let sortedItems := List.insertionSort (fun a b =>
              (classificationSortKey a).getD 0 ≤ (classificationSortKey b).getD 0)
              items
            sortedItems.foldr (fun item acc =>
              match acc with
              | none => none
              | some rs =>
                  match item with
                  | .obj f =>
                      match validateClassificationItem f with
                      | some r => some (r :: rs)
                      | none => none
                  | _ => none) (some [])
          else none
      | _ => none
  | _ => none

/-! ## Regex fallback parsing (`_parse_with_regex`) -/

/-- Regex `\w` (ASCII word character; the classification values scanned are
ASCII). -/
def isWordChar (c : Char) : Bool :=
  c.isAlphanum || c = '_'

/-- Regex `[0-9.]`. -/
def isFloatChar (c : Char) : Bool :=
  c.isDigit || c = '.'

/-- Strip a literal prefix, returning the remainder on success. -/
def dropLit (l : List Char) (lit : List Char) : Option (List Char) :=
  if lit.isPrefixOf l then some (l.drop lit.length) else none

/-- Try to match `lit` + `\s*` + `"` + a nonempty capture of `capClass`
characters + `"` at the head of `l`; return the capture and the remainder
after the closing quote. -/
def tryMatchQuoted (lit : List Char) (capClass : Char → Bool)
    (allowEmpty : Bool) (l : List Char) : Option (List Char × List Char) :=
  match dropLit l lit with
  | none => none
  | some r1 =>
      let r2 := r1.dropWhile isPySpace
      match r2 with
      | '"' :: r3 =>
          let cap := r3.takeWhile capClass
          if !allowEmpty && cap.isEmpty then none
          else
            match r3.drop cap.length with
            | '"' :: rest => some (cap, rest)
            | _ => none
      | _ => none

/-- Try to match `lit` + `\s*` + a nonempty capture of `capClass`
characters (no quotes) at the head of `l`. -/
def tryMatchBare (lit : List Char) (capClass : Char → Bool)
    (l : List Char) : Option (List Char × List Char) :=
  match dropLit l lit with
  | none => none
  | some r1 =>
      let r2 := r1.dropWhile isPySpace
      let cap := r2.takeWhile capClass
      if cap.isEmpty then none else some (cap, r2.drop cap.length)

/-- `re.findall` driver: scan left to right; on a match, emit the capture
and resume after the match (non-overlapping); otherwise advance one
character.  Fuel-bounded by the input length (each step consumes at least
one character). -/
def findAllGo (tryMatch : List Char → Option (List Char × List Char)) :
    Nat → List Char → List (List Char)
  | 0, _ => []
  | _ + 1, [] => []
  | fuel + 1, c :: rest =>
      match tryMatch (c :: rest) with
      | some (cap, after) => cap :: findAllGo tryMatch fuel after
      | none => findAllGo tryMatch fuel rest

/-- `re.findall(pattern, response)` for the three `_parse_with_regex`
patterns. -/
def findAll (tryMatch : List Char → Option (List Char × List Char))
    (l : List Char) : List (List Char) :=
  findAllGo tryMatch l.length l

/-- Matches of `"classification":\s*"(\w+)"`. -/
def findClassifications (l : List Char) : List (List Char) :=
  findAll (tryMatchQuoted "\"classification\":".data isWordChar false) l

/-- Matches of `"confidence":\s*([0-9.]+)`. -/
def findConfidences (l : List Char) : List (List Char) :=
  findAll (tryMatchBare "\"confidence\":".data isFloatChar) l

/-- Matches of `"title":\s*"([^\x22]*)"` (possibly empty capture up to the
closing quote). -/
def findTitles (l : List Char) : List (List Char) :=
  findAll (tryMatchQuoted "\"title\":".data (fun c => c ≠ '"') true) l

/-- Decimal value of a digit run. -/
def digitsVal (ds : List Char) : Nat :=
  ds.foldl (fun acc c => acc * 10 + (c.toNat - '0'.toNat)) 0

/-- Python `float` on a `[0-9.]+` capture: at most one dot, at least one
digit (`float("1.2.3")` and `float(".")` raise `ValueError`); the value
`i.f` is the exact rational `(i * 10^k + f) / 10^k`. -/
def pyFloat (l : List Char) : Option ℚ :=
  let intPart := l.takeWhile (·.isDigit)
  match l.drop intPart.length with
  | [] => if intPart.isEmpty then none else some (digitsVal intPart)
  | '.' :: fracPart =>
      if fracPart.all (·.isDigit) &&
          (!intPart.isEmpty || !fracPart.isEmpty) then
        some (ratLit (digitsVal intPart * 10 ^ fracPart.length +
          digitsVal fracPart) (10 ^ fracPart.length))
      else none
  | _ => none

/-- `_parse_with_regex` (classification_service.py lines 402-432): extract
classification/confidence/title triples by pattern scanning; index `i`
runs to the longer of the classification and confidence match lists, with
defaults `'other'` / `0.5` / `None` for exhausted lists; an un-floatable
confidence capture raises `ValueError`, caught by the function's own
`except` which returns `[]`; at most 10 results are kept. -/
def parse_with_regex (response : List Char) : List ClassificationResult :=
  let classifications := findClassifications response
  let confidences := findConfidences response
  let titles := findTitles response
  let n := max classifications.length confidences.length
  if (confidences.all (fun c => (pyFloat c).isSome)) then
    (((List.range n).map (fun i =>
      { classification :=
          ((classifications.get? i).map String.mk).getD "other"
        confidence :=
          match confidences.get? i with
          | some c => (pyFloat c).getD (ratLit 1 2)
          | none => ratLit 1 2
        title := (titles.get? i).map String.mk })) : List ClassificationResult).take 10
  else []

/-- `_parse_batch_classification_response` (classification_service.py lines
360-400): `decoded` is the oracle result of `json.loads` on the cleaned
response.  A strict decode failure (`none`, i.e. `json.JSONDecodeError`)
falls back to regex extraction over the ORIGINAL response; a runtime error
in the validation loop returns `[]`. -/
def parse_batch_classification_response (decoded : Option JValue)
    (response : List Char) : List ClassificationResult :=
  match decoded with
  | none => parse_with_regex response
  | some v => (extractClassificationResults v).getD []

/-! ## Individual-path AI client (`src/ai_client.py`) -/

/-- Result dict of `semantic_sling_schema_c` / `_parse_sling_response`
(the `reason` string is never read downstream and is not modelled). -/
structure SlingResultI where
  related : Bool
  thread_id : Option Nat
  confidence : ℚ
  deriving Repr, DecidableEq

/-- Result dict of `classify_message_schema_b` /
`_parse_classification_response` (the `reason` string is never read
downstream and is not modelled). -/
structure ClassifyResultI where
  classification : String
  confidence : ℚ
  title : Option String
  deriving Repr, DecidableEq

/-- Python `substring in response`. -/
def containsSub (l sub : List Char) : Bool :=
  l.tails.any (fun t => sub.isPrefixOf t)

/-- First match of `re.search(r'"thread_id":\s*(\d+)', response)`:
fuel-bounded left-to-right scan for the literal key followed by optional
whitespace and a digit run. -/
def searchThreadIdGo : Nat → List Char → Option Nat
  | 0, _ => none
  | _ + 1, [] => none
  | fuel + 1, c :: rest =>
      match tryMatchBare "\"thread_id\":".data (·.isDigit) (c :: rest) with
      | some (cap, _) =>
          some (cap.foldl (fun acc d => acc * 10 + (d.toNat - '0'.toNat)) 0)
      | none => searchThreadIdGo fuel rest

/-- `re.search(r'"thread_id":\s*(\d+)', response)` capture as a number. -/
def searchThreadId (l : List Char) : Option Nat :=
  searchThreadIdGo l.length l

/-- `_parse_sling_response` (ai_client.py lines 274-292): simplified
substring parsing — `related = True` with the extracted thread id when the
response contains both the literal `"related": true` and `thread_id` and a
`"thread_id": <digits>` match exists; the not-found default otherwise. -/
def parse_sling_response (response : List Char) : SlingResultI :=
  if containsSub response "\"related\": true".data &&
      containsSub response "thread_id".data then
    match searchThreadId response with
    | some tid => { related := true, thread_id := some tid,
                    confidence := ratLit 7 10 }
    | none => { related := false, thread_id := none, confidence := 0 }
  else { related := false, thread_id := none, confidence := 0 }

/-- `_parse_classification_response` (ai_client.py lines 257-272):
simplified substring parsing with hard-coded confidences — `goal`/`blocker`
always carry confidence 0.8, anything else is `other` with confidence
0.5. -/
def parse_classification_response (response : List Char) : ClassifyResultI :=
  if containsSub response "\"classification\": \"goal\"".data then
    { classification := "goal", confidence := ratLit 4 5,
      title := some "Новая цель" }
  else if containsSub response "\"classification\": \"blocker\"".data then
    { classification := "blocker", confidence := ratLit 4 5,
      title := some "Новый блокер" }
  else
    { classification := "other", confidence := ratLit 1 2, title := none }

/-- `semantic_sling_schema_c` (ai_client.py lines 141-190): one AI Gateway
request whose outcome is the oracle `o` (`Except.error` = the request
raised after exhausted retries, caught by the method's own `except` which
returns the not-related default). -/
def semantic_sling_schema_c (o : Except Unit (List Char)) : SlingResultI :=
  match o with
  | .error _ => { related := false, thread_id := none, confidence := 0 }
  | .ok response => parse_sling_response response

/-- `classify_message_schema_b` (ai_client.py lines 98-139): one AI Gateway
request whose outcome is the oracle `o` (`Except.error` = the request
raised, caught by the method's own `except` which returns the
`other`/confidence-0 default). -/
def classify_message_schema_b (o : Except Unit (List Char)) : ClassifyResultI :=
  match o with
  | .error _ => { classification := "other", confidence := 0, title := none }
  | .ok response => parse_classification_response response

/-! ## Classification engine (`src/services/classification_service.py`) -/

/-- `_step1_check_reply` (classification_service.py lines 503-521): if the
message has a (Python-truthy) `parent_message_id` whose stored parent row
carries a thread, inherit that thread id and classification via
`update_message_thread`; returns whether the message was handled.  Makes
no AI Gateway call. -/
def step1_check_reply (db : Db) (msg : MessageRow) : Db × Bool :=
  if pyTruthyNat msg.parent_message_id then
    match get_message_thread_by_parent db (msg.parent_message_id.getD 0) with
    | some pt =>
        ((update_message_thread db msg.message_id (some pt.thread_id)
            pt.classification_id).1, true)
    | none => (db, false)
  else (db, false)

/-- `_step2_semantic_sling` (classification_service.py lines 523-545):
individual semantic sling.  The message is linked when the AI result has
truthy `related` and `thread_id` AND the thread id resolves in the
database; the stored classification is the THREAD's label. -/
def step2_semantic_sling (db : Db) (msg : MessageRow)
    (oSling : Except Unit (List Char)) : Db × Bool :=
  let r := semantic_sling_schema_c oSling
  if r.related && pyTruthyNat r.thread_id then
    match get_thread_by_id db (r.thread_id.getD 0) with
    | some t =>
        ((update_message_thread db msg.message_id r.thread_id
            (some t.classification_id)).1, true)
    | none => (db, false)
  else (db, false)

/-- `_step3_new_entity_classification` (classification_service.py lines
547-573): individual new-entity classification.  A thread is created
whenever the classification is `goal` or `blocker` — the confidence is NOT
consulted on this path; otherwise the message is stored as `other` with no
thread. -/
def step3_new_entity_classification (db : Db) (msg : MessageRow)
    (result : ClassifyResultI) (now : Nat) : Db :=
  if result.classification = "goal" ∨ result.classification = "blocker" then
    let p := create_thread db
      (pyOrStr result.title (msg.message_text.take 50))
      result.classification now
    if p.2 > 0 then
      (update_message_thread p.1 msg.message_id (some p.2)
        (some result.classification)).1
    else p.1
  else
    (update_message_thread db msg.message_id none (some "other")).1

/-- The AI-backed tail of the individual pipeline (steps 2 and 3), split
out so that "the message proceeds past step 1" is a definitional
equation.  Returns the updated database and the number of AI Gateway
schema invocations made. -/
def steps23_classification (db : Db) (msg : MessageRow)
    (oSling oClassify : Except Unit (List Char)) (now : Nat) : Db × Nat :=
  let p := step2_semantic_sling db msg oSling
  if p.2 then (p.1, 1)
  else
    (step3_new_entity_classification p.1 msg
      (classify_message_schema_b oClassify) now, 2)

/-- `three_step_classification` (classification_service.py lines 481-501):
the individual three-step pipeline.  Returns the updated database and the
number of AI Gateway schema invocations made for the message. -/
def three_step_classification (db : Db) (msg : MessageRow)
    (oSling oClassify : Except Unit (List Char)) (now : Nat) : Db × Nat :=
  let p := step1_check_reply db msg
  if p.2 then (p.1, 0)
  else steps23_classification p.1 msg oSling oClassify now

/-- The per-message oracle pair consumed by the individual pipeline. -/
structure IndivOracle where
  sling : Except Unit (List Char)
  classify : Except Unit (List Char)

/-- `_fallback_individual_processing` (classification_service.py lines
464-474): run the individual three-step pipeline over every message of the
batch (messages beyond the supplied oracle list get the raised-call
outcome). -/
def fallback_individual_processing (db : Db) (batch : List MessageRow)
    (oracles : List IndivOracle) (now : Nat) : Db × Nat :=
  match batch with
  | [] => (db, 0)
  | m :: rest =>
      let o := oracles.headD ⟨.error (), .error ()⟩
      let db1 := (three_step_classification db m o.sling o.classify now).1
      let x := fallback_individual_processing db1 rest oracles.tail now
      (x.1, x.2 + 1)

/-! ## Batched engine paths -/

/-- `_batch_step1_replies` (classification_service.py lines 99-109): run
step 1 over the batch; handled messages are dropped, the rest are
returned, in order. -/
def batch_step1_replies (db : Db) (batch : List MessageRow) :
    Db × List MessageRow :=
  match batch with
  | [] => (db, [])
  | m :: rest =>
      let p := step1_check_reply db m
      let x := batch_step1_replies p.1 rest
      (x.1, if p.2 then x.2 else m :: x.2)

/-- The per-message loop of `_batch_step2_semantic_sling`
(classification_service.py lines 129-149), marching through the parsed
sling results positionally (`i < len(sling_results)` becomes head
consumption).  A message is linked — inheriting the THREAD's
classification — when its result has truthy `related` and `thread_id` and
the id resolves via `get_thread_by_id`; otherwise (no result, unrelated,
falsy id, or unresolvable id) it is appended to the remaining list.
Returns (database, linked count, remaining messages). -/
def batchSlingApply (db : Db) (results : List SlingResult)
    (batch : List MessageRow) : Db × Nat × List MessageRow :=
  match batch, results with
  | [], _ => (db, 0, [])
  | m :: rest, [] =>
      let x := batchSlingApply db [] rest
      (x.1, x.2.1, m :: x.2.2)
  | m :: rest, r :: rs =>
      if r.related && pyTruthyNat r.thread_id then
        match get_thread_by_id db (r.thread_id.getD 0) with
        | some t =>
            let db1 := (update_message_thread db m.message_id r.thread_id
              (some t.classification_id)).1
            let x := batchSlingApply db1 rs rest
            (x.1, x.2.1 + 1, x.2.2)
        | none =>
            let x := batchSlingApply db rs rest
            (x.1, x.2.1, m :: x.2.2)
      else
        let x := batchSlingApply db rs rest
        (x.1, x.2.1, m :: x.2.2)

/-- `_batch_step2_semantic_sling` (classification_service.py lines
111-156).  Skipped outright (0 linked, whole batch remaining) when the
batch or the active-thread context is empty.  `o` is the batched AI call
outcome: `Except.error` models the call raising after exhausted retries,
caught by the method's own `except` (0 linked, whole batch remaining).
A single-message batch also lands in that `except`: the prompt template
evaluates `messages_batch[1]['message_id']` (line 252), raising
`IndexError` before any AI call. -/
def batch_step2_semantic_sling (db : Db) (batch : List MessageRow)
    (active_threads : List ThreadInfo) (o : Except Unit (Option JValue)) :
    Db × Nat × List MessageRow :=
  if batch.isEmpty || active_threads.isEmpty then (db, 0, batch)
  else if batch.length < 2 then (db, 0, batch)
  else
    match o with
    | .error _ => (db, 0, batch)
    | .ok decoded => batchSlingApply db (parse_batch_sling_response decoded) batch

/-- `_apply_classification_result` (classification_service.py lines
434-462): on the BATCHED path a thread is created iff the classification
is `goal` or `blocker` AND the confidence strictly exceeds 0.6; otherwise
the message is stored processed as `other` with no thread.  Returns the
database and the method's success flag. -/
def apply_classification_result (db : Db) (msg : MessageRow)
    (result : ClassificationResult) (now : Nat) : Db × Bool :=
  if (result.classification = "goal" ∨ result.classification = "blocker") ∧
      result.confidence > ratLit 3 5 then
    let (db1, tid) := create_thread db
      (pyOrStr result.title (msg.message_text.take 50))
      result.classification now
    if tid > 0 then
      ((update_message_thread db1 msg.message_id (some tid)
          (some result.classification)).1, true)
    else (db1, false)
  else
    ((update_message_thread db msg.message_id none (some "other")).1, true)

/-- The per-message loop of `_batch_step3_new_entities`
(classification_service.py lines 172-183): apply each classification
result positionally; messages beyond the result list are stored as
`other` with no thread. -/
def batchClassificationApply (db : Db) (results : List ClassificationResult)
    (batch : List MessageRow) (now : Nat) : Db × Nat :=
  match batch, results with
  | [], _ => (db, 0)
  | m :: rest, [] =>
      let db1 := (update_message_thread db m.message_id none (some "other")).1
      let x := batchClassificationApply db1 [] rest now
      (x.1, x.2 + 1)
  | m :: rest, r :: rs =>
      let p := apply_classification_result db m r now
      let x := batchClassificationApply p.1 rs rest now
      (x.1, if p.2 then x.2 + 1 else x.2)

/-- `_batch_step3_new_entities` (classification_service.py lines 158-190).
`o` is the batched AI call outcome: on success it carries the raw response
text and the `json.loads` oracle result for the cleaned text; on
`Except.error` (call raised after exhausted retries) the method's `except`
falls back to `_fallback_individual_classification`, i.e. individual
processing with an empty thread context. -/
def batch_step3_new_entities (db : Db) (batch : List MessageRow)
    (o : Except Unit (List Char × Option JValue))
    (indiv : List IndivOracle) (now : Nat) : Db × Nat :=
  if batch.isEmpty then (db, 0)
  else
    match o with
    | .error _ => fallback_individual_processing db batch indiv now
    | .ok (response, decoded) =>
        batchClassificationApply db
          (parse_batch_classification_response decoded response) batch now

/-- The body of `process_batch` (classification_service.py lines 68-92):
step 1, then batched sling, then batched new-entity classification, each
stage feeding its remaining messages to the next.  Returns the database
and the processed count. -/
def process_batch_body (db : Db) (batch : List MessageRow)
    (active_threads : List ThreadInfo)
    (o2 : Except Unit (Option JValue))
    (o3 : Except Unit (List Char × Option JValue))
    (indiv : List IndivOracle) (now : Nat) : Db × Nat :=
  let s1 := batch_step1_replies db batch
  let c1 := batch.length - s1.2.length
  if s1.2.isEmpty then (s1.1, c1)
  else
    let s2 := batch_step2_semantic_sling s1.1 s1.2 active_threads o2
    if s2.2.2.isEmpty then (s2.1, c1 + s2.2.1)
    else
      let s3 := batch_step3_new_entities s2.1 s2.2.2 o3 indiv now
      (s3.1, c1 + s2.2.1 + s3.2)

/-- The `except` handler of `process_batch` (classification_service.py
lines 94-97): when the batched processing raises, the whole batch degrades
to `_fallback_individual_processing` with the same active-thread
context. -/
def process_batch_on_exception (db : Db) (batch : List MessageRow)
    (indiv : List IndivOracle) (now : Nat) : Db × Nat :=
  fallback_individual_processing db batch indiv now

/-- Grouping of `process_unprocessed_messages` (classification_service.py
lines 24-30): unprocessed messages bucketed by `topic_id`, insertion
ordered like a Python dict. -/
def groupByTopic (msgs : List MessageRow) : List (Nat × List MessageRow) :=
  msgs.foldl (fun acc m =>
    if acc.any (fun g => g.1 == m.topic_id) then
      acc.map (fun g => if g.1 == m.topic_id then (g.1, g.2 ++ [m]) else g)
    else acc ++ [(m.topic_id, [m])]) []

/-! ## AI Gateway (`src/ai_client.py::send_request` /
`send_request_with_retry`)

Backend outcomes are an oracle list consumed one entry per completion
attempt (the list exhausting models further backend failures). -/

/-- Result of a `send_request` sweep: the outcome, the model keys for
which a backend call was attempted (in order), and the unconsumed
oracle. -/
-- Decidable equality for backend outcomes (used by concrete evaluations).
instance : DecidableEq (Except String String) := fun a b =>
  match a, b with
  | .ok x, .ok y =>
      if h : x = y then isTrue (by rw [h]) else isFalse (by simp [h])
  | .error x, .error y =>
      if h : x = y then isTrue (by rw [h]) else isFalse (by simp [h])
  | .ok _, .error _ => isFalse (by simp)
  | .error _, .ok _ => isFalse (by simp)

structure SweepResult where
  result : Except String String
  attempted : List String
  remaining : List (Except String String)
  deriving Repr, DecidableEq

/-- The model-iteration loop of `send_request` (ai_client.py lines
72-89): try each key in order, consuming one backend outcome per
registered key; a missing registry entry (`KeyError`) just records the
error and moves on without a backend call; first success returns. -/
def sendRequestGo (models : List (String × String)) :
    List String → List (Except String String) → String → SweepResult
  | [], outcomes, lastErr =>
      { result := .error ("Все AI модели недоступны. Последняя ошибка: " ++ lastErr)
        attempted := [], remaining := outcomes }
  | key :: keys, outcomes, lastErr =>
      match models.find? (fun m => m.1 == key) with
      | none => sendRequestGo models keys outcomes "KeyError"
      | some _ =>
          match outcomes with
          | [] =>
              let r := sendRequestGo models keys [] "backend unavailable"
              { r with attempted := key :: r.attempted }
          | .ok v :: rest =>
              { result := .ok v, attempted := [key], remaining := rest }
          | .error e :: rest =>
              let r := sendRequestGo models keys rest e
              { r with attempted := key :: r.attempted }

/-- `send_request` (ai_client.py lines 58-94): raise when no models are
registered; otherwise try the preferred model (or the first registered
one), then every other registered model in registration order, returning
the first success; when all fail, raise carrying the last underlying
error message. -/
def send_request (models : List (String × String)) (modelKey : Option String)
    (outcomes : List (Except String String)) : SweepResult :=
  match models with
  | [] => { result := .error "Нет доступных AI моделей", attempted := [],
            remaining := outcomes }
  | (k0, _) :: _ =>
      let mk := modelKey.getD k0
      let keys := mk :: (models.map (·.1)).filter (fun k => k ≠ mk)
      sendRequestGo models keys outcomes "None"

/-- Result of `send_request_with_retry`: the outcome, all attempted model
keys across sweeps, and the seconds slept between sweeps. -/
structure RetryResult where
  result : Except String String
  attempted : List String
  sleeps : List Nat
  deriving Repr, DecidableEq

/-- The retry loop of `send_request_with_retry` (ai_client.py lines
41-56): run full `send_request` sweeps, sleeping `2 ^ attempt` seconds
between failed sweeps; after `max_retries` failed sweeps raise carrying
the last sweep's error message. -/
def sendRequestRetryGo (models : List (String × String))
    (modelKey : Option String) (maxRetries : Nat) :
    Nat → List (Except String String) → String → RetryResult
  | 0, _, lastE =>
      { result := .error ("Все " ++ toString maxRetries ++
          " попыток не удались. Последняя ошибка: " ++ lastE)
        attempted := [], sleeps := [] }
  | n + 1, outcomes, _ =>
      let sweep := send_request models modelKey outcomes
      match sweep.result with
      | .ok v => { result := .ok v, attempted := sweep.attempted, sleeps := [] }
      | .error e =>
          if n = 0 then
            { result := .error ("Все " ++ toString maxRetries ++
                " попыток не удались. Последняя ошибка: " ++ e)
              attempted := sweep.attempted, sleeps := [] }
          else
            let r := sendRequestRetryGo models modelKey maxRetries n
              sweep.remaining e
            { result := r.result
              attempted := sweep.attempted ++ r.attempted
              sleeps := 2 ^ (maxRetries - (n + 1)) :: r.sleeps }

/-- `send_request_with_retry` (ai_client.py lines 41-56) with the default
`max_retries = 3`. -/
def send_request_with_retry (models : List (String × String))
    (modelKey : Option String) (outcomes : List (Except String String))
    (maxRetries : Nat := 3) : RetryResult :=
  sendRequestRetryGo models modelKey maxRetries maxRetries outcomes "None"

/-! ## Helper lemmas -/

/-- Every row carrying a given `message_id` is marked processed. -/
def ProcessedInDb (db : Db) (mid : Nat) : Prop :=
  ∀ row ∈ db.messages, row.message_id = mid → row.processed = some true

theorem updRow_message_id (mid : Nat) (tid : Option Nat) (cls : Option String)
    (r : MessageRow) : (updRow mid tid cls r).message_id = r.message_id := by
  rw [updRow]
  split
  · split <;> rfl
  · rfl

theorem updRow_of_ne {mid : Nat} {tid : Option Nat} {cls : Option String}
    {r : MessageRow} (h : r.message_id ≠ mid) : updRow mid tid cls r = r := by
  rw [updRow, if_neg h]

theorem updRow_fields {mid : Nat} {tid : Option Nat} {cls : Option String}
    {r : MessageRow} (h : r.message_id = mid) :
    (updRow mid tid cls r).thread_id = tid ∧
      (updRow mid tid cls r).processed = some true ∧
      (pyTruthyStr cls = true → (updRow mid tid cls r).classification_id = cls) := by
  rw [updRow, if_pos h]
  by_cases htr : pyTruthyStr cls = true
  · rw [if_pos htr]
    exact ⟨rfl, rfl, fun _ => rfl⟩
  · rw [if_neg htr]
    exact ⟨rfl, rfl, fun hc => absurd hc htr⟩

theorem update_row_fields {db : Db} {mid : Nat} {tid : Option Nat}
    {cls : Option String} {row : MessageRow}
    (h : row ∈ (update_message_thread db mid tid cls).1.messages)
    (hid : row.message_id = mid) :
    row.thread_id = tid ∧ row.processed = some true ∧
      (pyTruthyStr cls = true → row.classification_id = cls) := by
  rw [update_message_thread] at h
  simp only [List.mem_map] at h
  obtain ⟨r0, _, hrow⟩ := h
  subst hrow
  by_cases hmatch : r0.message_id = mid
  · exact updRow_fields hmatch
  · rw [updRow_of_ne hmatch] at hid ⊢
    exact absurd hid hmatch

theorem processedInDb_update_self (db : Db) (mid : Nat) (tid : Option Nat)
    (cls : Option String) :
    ProcessedInDb (update_message_thread db mid tid cls).1 mid := by
  intro row hrow hid
  exact (update_row_fields hrow hid).2.1

theorem processedInDb_update_mono {db : Db} {k : Nat} (mid : Nat)
    (tid : Option Nat) (cls : Option String) (h : ProcessedInDb db k) :
    ProcessedInDb (update_message_thread db mid tid cls).1 k := by
  intro row hrow hid
  rw [update_message_thread] at hrow
  simp only [List.mem_map] at hrow
  obtain ⟨r0, hr0, hrow⟩ := hrow
  subst hrow
  by_cases hmatch : r0.message_id = mid
  · exact (updRow_fields hmatch).2.1
  · rw [updRow_of_ne hmatch] at hid ⊢
    exact h r0 hr0 hid

theorem processedInDb_create_thread {db : Db} {k : Nat} (title cls : String)
    (now : Nat) (h : ProcessedInDb db k) :
    ProcessedInDb (create_thread db title cls now).1 k := by
  intro row hrow hid
  exact h row hrow hid

theorem freshThreadId_pos (db : Db) : 0 < db.freshThreadId :=
  Nat.succ_pos _

/-- The rows carrying a given `message_id`, with their mutable fields. -/
def rowsWithId (db : Db) (k : Nat) : List MessageRow :=
  db.messages.filter (fun r => r.message_id == k)

theorem rowsWithId_update_other {db : Db} (k mid : Nat)
    (tid : Option Nat) (cls : Option String) (hne : k ≠ mid) :
    rowsWithId (update_message_thread db mid tid cls).1 k = rowsWithId db k := by
  rw [rowsWithId, rowsWithId, update_message_thread]
  show List.filter _ (db.messages.map (updRow mid tid cls)) = _
  induction db.messages with
  | nil => rfl
  | cons r0 rest ih =>
      rw [List.map_cons, List.filter_cons, List.filter_cons]
      by_cases hk : r0.message_id = k
      · have hmatch : r0.message_id ≠ mid := by rw [hk]; exact hne
        rw [updRow_of_ne hmatch]
        simp only [hk, beq_self_eq_true, if_true]
        rw [ih]
      · have hbeq : (r0.message_id == k) = false := by simp [hk]
        have hbeq2 : ((updRow mid tid cls r0).message_id == k) = false := by
          rw [updRow_message_id]; simp [hk]
        rw [hbeq, hbeq2]
        simpa using ih

theorem rowsWithId_create_thread (db : Db) (title cls : String) (now k : Nat) :
    rowsWithId (create_thread db title cls now).1 k = rowsWithId db k := rfl

theorem mem_rowsWithId {db : Db} {k : Nat} {row : MessageRow} :
    row ∈ rowsWithId db k ↔ row ∈ db.messages ∧ row.message_id = k := by
  simp [rowsWithId]

/-! ## Claim C6 -/

/-- The message record built by the source-topic handler
(`src/main.py::process_topic_message`, lines 613-632): explicit null
thread, label and parent, and NO `processed` key — so
`message_data.get('processed')` is `None`. -/
def ingestedMessageC6 : MessageData :=
  { message_id := 42, topic_id := 10, thread_id := none,
    parent_message_id := none, classification_id := none,
    message_text := "Нужно сделать MVP", created_at := none,
    processed := none }

/-- C6: the ingestion-lifecycle claim is contradicted by the code: a
message saved by the source-topic handler (no explicit `processed` flag)
is stored with `processed = NULL`, not `FALSE` — `save_message` binds
every column explicitly, so the column's `DEFAULT FALSE` never applies —
and `get_unprocessed_messages` (`WHERE processed = FALSE`) therefore never
returns it: the freshly ingested message does NOT appear among the
unprocessed messages.  The second half of the claim is accurate:
`get_unprocessed_messages` returns exactly the rows with
`processed = FALSE`, sorted by creation time ascending. -/
theorem C6_ingestion_processed_null :
    ((save_message ⟨[], []⟩ ingestedMessageC6 5 false).1.messages.map
        (·.processed) = [none]) ∧
    get_unprocessed_messages (save_message ⟨[], []⟩ ingestedMessageC6 5 false).1
      = [] ∧
    (∀ (db : Db) (row : MessageRow),
      row ∈ get_unprocessed_messages db ↔
        row ∈ db.messages ∧ row.processed = some false) ∧
    (∀ db : Db, (get_unprocessed_messages db).Sorted
      (fun a b => a.created_at ≤ b.created_at)) := by
  refine ⟨by decide, by decide, ?_, ?_⟩
  · intro db row
    rw [get_unprocessed_messages, List.mem_insertionSort, List.mem_filter]
    simp
  · intro db
    haveI : IsTotal MessageRow (fun a b => a.created_at ≤ b.created_at) :=
      ⟨fun a b => Nat.le_total _ _⟩
    haveI : IsTrans MessageRow (fun a b => a.created_at ≤ b.created_at) :=
      ⟨fun _ _ _ => Nat.le_trans⟩
    exact List.sorted_insertionSort _ _

/-! ## Claim C7 -/

/-- First save: external id 1 in topic 10. -/
def saveDataC7a : MessageData :=
  { message_id := 1, topic_id := 10, thread_id := none,
    parent_message_id := none, classification_id := none,
    message_text := "first", created_at := some 100, processed := none }

/-- Second save: SAME external id 1 but a DIFFERENT topic 20. -/
def saveDataC7b : MessageData :=
  { message_id := 1, topic_id := 20, thread_id := none,
    parent_message_id := none, classification_id := none,
    message_text := "second", created_at := some 200, processed := none }

/-- C7 counterexample: the claim says records with the same external id in
different topics coexist (upsert keyed by (external id, topic)).  The
table's only unique constraint is `UNIQUE(message_id)` and `save_message`
uses `INSERT OR REPLACE`, so saving external id 1 into topic 10 and then
into topic 20 leaves a SINGLE record — the topic-20 one — not two. -/
theorem C7_counterexample :
    ((save_message (save_message ⟨[], []⟩ saveDataC7a 0 false).1
        saveDataC7b 0 false).1.messages.length = 1) ∧
    ((save_message (save_message ⟨[], []⟩ saveDataC7a 0 false).1
        saveDataC7b 0 false).1.messages.map (fun r => (r.topic_id, r.message_text))
      = [(20, "second")]) := by
  exact ⟨by decide, by decide⟩

/-- C7 amended: `save_message` is an upsert keyed by the external
`message_id` ALONE: re-saving any id leaves exactly one record carrying
it (the latest save wins, whatever its topic), re-saving identical data
is idempotent, and the `except` branch (constraint violation / I/O error)
returns the falsy `0` with the store unchanged — it never raises. -/
theorem save_message_countP (db : Db) (d : MessageData) (now : Nat) :
    (save_message db d now false).1.messages.countP
      (fun r => r.message_id == d.message_id) = 1 := by
  rw [save_message]
  simp only [if_neg (Bool.false_ne_true)]
  rw [List.countP_append]
  have hz : (db.messages.filter (fun r => r.message_id ≠ d.message_id)).countP
      (fun r => r.message_id == d.message_id) = 0 := by
    rw [List.countP_eq_zero]
    intro r hr
    simpa using (List.mem_filter.mp hr).2
  rw [hz]
  simp [List.countP_cons]

theorem C7_amended (db : Db) (d d' : MessageData) (now now' : Nat)
    (hid : d'.message_id = d.message_id) :
    (((save_message (save_message db d now false).1 d' now' false).1.messages.countP
        (fun r => r.message_id == d.message_id)) = 1) ∧
    (save_message (save_message db d now false).1 d now false
      = save_message db d now false) ∧
    (save_message db d now true = (db, 0)) := by
  refine ⟨?_, ?_, rfl⟩
  · have h := save_message_countP (save_message db d now false).1 d' now'
    rw [hid] at h
    exact h
  · simp only [save_message, if_neg (Bool.false_ne_true)]
    congr 1
    rw [List.filter_append, List.filter_filter]
    simp

/-- C7 witness: the amended theorem applied at a concrete store and
payload. -/
theorem C7_witness :
    ((save_message (save_message ⟨[], []⟩ saveDataC7a 0 false).1
        saveDataC7a 7 false).1.messages.countP
      (fun r => r.message_id == saveDataC7a.message_id) = 1) ∧
    (save_message (save_message ⟨[], []⟩ saveDataC7a 0 false).1 saveDataC7a 0 false
      = save_message ⟨[], []⟩ saveDataC7a 0 false) ∧
    (save_message ⟨[], []⟩ saveDataC7a 0 true = (⟨[], []⟩, 0)) :=
  C7_amended ⟨[], []⟩ saveDataC7a saveDataC7a 0 7 rfl

/-! ## Claim C2 -/

theorem update_message_thread_threads (db : Db) (mid : Nat) (tid : Option Nat)
    (cls : Option String) :
    (update_message_thread db mid tid cls).1.threads = db.threads := rfl

theorem step3_threads_of_entity {ri : ClassifyResultI} (db : Db)
    (msg : MessageRow) (now : Nat)
    (h : ri.classification = "goal" ∨ ri.classification = "blocker") :
    (step3_new_entity_classification db msg ri now).threads.length
      = db.threads.length + 1 := by
  rw [step3_new_entity_classification, if_pos h]
  simp only [create_thread]
  rw [if_pos (freshThreadId_pos db)]
  rw [update_message_thread_threads]
  simp

theorem step3_threads_of_other {ri : ClassifyResultI} (db : Db)
    (msg : MessageRow) (now : Nat)
    (h : ¬(ri.classification = "goal" ∨ ri.classification = "blocker")) :
    (step3_new_entity_classification db msg ri now).threads = db.threads := by
  rw [step3_new_entity_classification, if_neg h]
  rw [update_message_thread_threads]

theorem apply_threads_of_gate {r : ClassificationResult} (db : Db)
    (msg : MessageRow) (now : Nat)
    (h : (r.classification = "goal" ∨ r.classification = "blocker") ∧
      r.confidence > ratLit 3 5) :
    (apply_classification_result db msg r now).1.threads.length
      = db.threads.length + 1 := by
  rw [apply_classification_result, if_pos h]
  simp only [create_thread]
  rw [if_pos (freshThreadId_pos db)]
  rw [update_message_thread_threads]
  simp

theorem apply_threads_of_nogate {r : ClassificationResult} (db : Db)
    (msg : MessageRow) (now : Nat)
    (h : ¬((r.classification = "goal" ∨ r.classification = "blocker") ∧
      r.confidence > ratLit 3 5)) :
    (apply_classification_result db msg r now).1.threads = db.threads := by
  rw [apply_classification_result, if_neg h]
  rw [update_message_thread_threads]

/-- An unprocessed message row. -/
def msgC2 : MessageRow :=
  { message_id := 300, topic_id := 20, thread_id := none,
    parent_message_id := none, classification_id := none,
    message_text := "xlsx не открывается", created_at := 50,
    processed := some false }

/-- A store holding one unprocessed message and no threads. -/
def dbC2 : Db :=
  { messages := [msgC2], threads := [] }

/-- C2 counterexample: on the per-message fallback path
(`_step3_new_entity_classification`) a classification of `goal` with
confidence 0.5 — NOT exceeding the 0.6 threshold — DOES create a thread,
and the message is stored with label `goal` and a non-null thread
reference, contradicting the claim that the confidence gate holds on both
paths (the individual path never consults the confidence). -/
theorem C2_counterexample :
    ((step3_new_entity_classification dbC2 msgC2
        { classification := "goal", confidence := ratLit 1 2, title := none }
        99).threads.length = 1) ∧
    ((step3_new_entity_classification dbC2 msgC2
        { classification := "goal", confidence := ratLit 1 2, title := none }
        99).messages.map (fun r => (r.thread_id, r.classification_id, r.processed))
      = [(some 1, some "goal", some true)]) :=
  ⟨by decide, by decide⟩

/-- C2 amended: the confidence gate holds exactly as claimed on the
BATCHED path (`_apply_classification_result`): a thread is created iff the
classification is `goal`/`blocker` AND the confidence strictly exceeds
0.6, and otherwise the message is stored processed with label `other` and
a null thread reference.  On the per-message fallback path
(`_step3_new_entity_classification`) the gate is classification-only: a
thread is created iff the classification is `goal`/`blocker`, whatever
the confidence.  The shipped response parser
(`_parse_classification_response`) only ever attaches confidence 0.8 to
`goal`/`blocker` and 0.5/0 to `other`, so the composed individual path
(`classify_message_schema_b` then step 3) still satisfies the claimed
iff. -/
theorem C2_amended (db : Db) (msg : MessageRow) (r : ClassificationResult)
    (ri : ClassifyResultI) (o : Except Unit (List Char)) (now : Nat) :
    (((apply_classification_result db msg r now).1.threads.length
        = db.threads.length + 1) ↔
      ((r.classification = "goal" ∨ r.classification = "blocker") ∧
        r.confidence > ratLit 3 5)) ∧
    (¬((r.classification = "goal" ∨ r.classification = "blocker") ∧
        r.confidence > ratLit 3 5) →
      ∀ row ∈ (apply_classification_result db msg r now).1.messages,
        row.message_id = msg.message_id →
          row.classification_id = some "other" ∧ row.thread_id = none ∧
            row.processed = some true) ∧
    (((step3_new_entity_classification db msg ri now).threads.length
        = db.threads.length + 1) ↔
      (ri.classification = "goal" ∨ ri.classification = "blocker")) ∧
    (((step3_new_entity_classification db msg
          (classify_message_schema_b o) now).threads.length
        = db.threads.length + 1) ↔
      (((classify_message_schema_b o).classification = "goal" ∨
          (classify_message_schema_b o).classification = "blocker") ∧
        (classify_message_schema_b o).confidence > ratLit 3 5)) := by
  refine ⟨?_, ?_, ?_, ?_⟩
  · constructor
    · intro hlen
      by_contra hgate
      rw [apply_threads_of_nogate db msg now hgate] at hlen
      omega
    · intro hgate
      exact apply_threads_of_gate db msg now hgate
  · intro hgate row hrow hid
    rw [apply_classification_result, if_neg hgate] at hrow
    obtain ⟨ht, hp, hc⟩ := update_row_fields hrow hid
    exact ⟨hc (by decide), ht, hp⟩
  · constructor
    · intro hlen
      by_contra hcls
      rw [step3_threads_of_other db msg now hcls] at hlen
      omega
    · intro hcls
      exact step3_threads_of_entity db msg now hcls
  · have hcases : (classify_message_schema_b o).classification = "goal" ∧
        (classify_message_schema_b o).confidence = ratLit 4 5 ∨
      (classify_message_schema_b o).classification = "blocker" ∧
        (classify_message_schema_b o).confidence = ratLit 4 5 ∨
      (classify_message_schema_b o).classification = "other" := by
      cases o with
      | error e => right; right; rfl
      | ok resp =>
          simp only [classify_message_schema_b]
          rw [parse_classification_response]
          split
          · left; exact ⟨rfl, rfl⟩
          · split
            · right; left; exact ⟨rfl, rfl⟩
            · right; right; rfl
    rcases hcases with ⟨hc, hconf⟩ | ⟨hc, hconf⟩ | hc
    · rw [step3_threads_of_entity db msg now (Or.inl hc), hc, hconf]
      exact iff_of_true rfl ⟨Or.inl rfl, by decide⟩
    · rw [step3_threads_of_entity db msg now (Or.inr hc), hc, hconf]
      exact iff_of_true rfl ⟨Or.inr rfl, by decide⟩
    · have hno : ¬((classify_message_schema_b o).classification = "goal" ∨
          (classify_message_schema_b o).classification = "blocker") := by
        rw [hc]; rintro (h | h) <;> simp at h
      rw [step3_threads_of_other db msg now hno]
      constructor
      · intro hlen; omega
      · rintro ⟨habs, -⟩; exact absurd habs hno

/-- A low-confidence `other` classification result. -/
def resC2other : ClassificationResult :=
  { classification := "other", confidence := ratLit 1 2, title := none }

/-- A low-confidence `other` individual classification result. -/
def resC2otherI : ClassifyResultI :=
  { classification := "other", confidence := ratLit 1 2, title := none }

/-- C2 witness: the amended theorem applied at a concrete store, result
and oracle, discharging the non-gate hypothesis at an `other` result for
the batched path's `other` storage clause. -/
theorem C2_witness :
    (¬((resC2other.classification = "goal" ∨
        resC2other.classification = "blocker") ∧
        resC2other.confidence > ratLit 3 5)) ∧
    (∀ row ∈ (apply_classification_result dbC2 msgC2 resC2other 99).1.messages,
      row.message_id = msgC2.message_id →
        row.classification_id = some "other" ∧ row.thread_id = none ∧
          row.processed = some true) := by
  have hno : ¬((resC2other.classification = "goal" ∨
      resC2other.classification = "blocker") ∧
      resC2other.confidence > ratLit 3 5) := by decide
  exact ⟨hno,
    (C2_amended dbC2 msgC2 resC2other resC2otherI (.error ()) 99).2.1 hno⟩

/-! ## Claims C4 and C10 -/

theorem pyTruthyNat_some {n : Nat} (h : n ≠ 0) :
    pyTruthyNat (some n) = true := by
  simp [pyTruthyNat, h]

theorem pyTruthyStr_some {s : String} (h : s ≠ "") :
    pyTruthyStr (some s) = true := by
  simp only [pyTruthyStr]
  cases hbe : s.isEmpty with
  | false => rfl
  | true => exact absurd ((String.isEmpty_iff s).mp hbe) h

theorem step1_of_parent_thread {db : Db} {msg : MessageRow} {pid tid : Nat}
    {cls : Option String}
    (hp : msg.parent_message_id = some pid) (hpnz : pid ≠ 0)
    (hparent : get_message_thread_by_parent db pid = some ⟨tid, cls⟩) :
    step1_check_reply db msg =
      ((update_message_thread db msg.message_id (some tid) cls).1, true) := by
  rw [step1_check_reply, hp]
  rw [if_pos (pyTruthyNat_some hpnz)]
  simp only [Option.getD_some]
  rw [hparent]

/-- C4: when an unprocessed message replies (truthy parent id) to a stored
message already associated with a thread, step 1 assigns the parent's
thread id and classification label, marks the message processed, and the
three-step pipeline makes ZERO AI Gateway invocations for it. -/
theorem C4_reply_inheritance (db : Db) (msg : MessageRow) (pid tid : Nat)
    (cls : String) (oS oC : Except Unit (List Char)) (now : Nat)
    (hp : msg.parent_message_id = some pid) (hpnz : pid ≠ 0)
    (hparent : get_message_thread_by_parent db pid = some ⟨tid, some cls⟩)
    (hcls : cls ≠ "") :
    (three_step_classification db msg oS oC now).2 = 0 ∧
    (∀ row ∈ (three_step_classification db msg oS oC now).1.messages,
      row.message_id = msg.message_id →
        row.thread_id = some tid ∧ row.classification_id = some cls ∧
          row.processed = some true) := by
  have hstep1 := step1_of_parent_thread hp hpnz hparent
  have h3 : three_step_classification db msg oS oC now =
      ((update_message_thread db msg.message_id (some tid) (some cls)).1, 0) := by
    rw [three_step_classification, hstep1]
    rfl
  rw [h3]
  refine ⟨rfl, ?_⟩
  intro row hrow hid
  obtain ⟨ht, hpr, hc⟩ := update_row_fields hrow hid
  exact ⟨ht, hc (pyTruthyStr_some hcls), hpr⟩

/-- Parent row already in thread 3 with label `goal`. -/
def parentRowC4 : MessageRow :=
  { message_id := 7, topic_id := 10, thread_id := some 3,
    parent_message_id := none, classification_id := some "goal",
    message_text := "Сделать MVP бота", created_at := 10,
    processed := some true }

/-- Unprocessed reply to message 7. -/
def replyRowC4 : MessageRow :=
  { message_id := 8, topic_id := 10, thread_id := none,
    parent_message_id := some 7, classification_id := none,
    message_text := "Поддерживаю", created_at := 20,
    processed := some false }

/-- Store with the classified parent and its unprocessed reply. -/
def dbC4 : Db := { messages := [parentRowC4, replyRowC4], threads := [] }

/-- C4 witness: the theorem applied to the concrete store. -/
theorem C4_witness :
    (three_step_classification dbC4 replyRowC4 (.error ()) (.error ()) 99).2 = 0 ∧
    (∀ row ∈ (three_step_classification dbC4 replyRowC4 (.error ()) (.error ())
        99).1.messages,
      row.message_id = replyRowC4.message_id →
        row.thread_id = some 3 ∧ row.classification_id = some "goal" ∧
          row.processed = some true) :=
  C4_reply_inheritance dbC4 replyRowC4 7 3 "goal" (.error ()) (.error ()) 99
    (by decide) (by decide) (by decide) (by decide)

/-- C10: when the reply-parent row exists in the store but carries a null
thread reference, the parent lookup (`WHERE ... thread_id IS NOT NULL`)
returns nothing, step 1 does not handle the message (store unchanged, not
marked processed), and the pipeline proceeds to the AI-backed steps 2 and
3. -/
theorem C10_parent_without_thread (db : Db) (msg : MessageRow) (pid : Nat)
    (oS oC : Except Unit (List Char)) (now : Nat)
    (hp : msg.parent_message_id = some pid) (hpnz : pid ≠ 0)
    (hstored : ∃ row ∈ db.messages, row.message_id = pid)
    (hnull : ∀ row ∈ db.messages, row.message_id = pid → row.thread_id = none) :
    get_message_thread_by_parent db pid = none ∧
    step1_check_reply db msg = (db, false) ∧
    three_step_classification db msg oS oC now =
      steps23_classification db msg oS oC now := by
  have hlookup : get_message_thread_by_parent db pid = none := by
    rw [get_message_thread_by_parent]
    rw [List.find?_eq_none.mpr]
    intro row hrow
    by_cases hid : row.message_id = pid
    · have := hnull row hrow hid
      simp [hid, this]
    · simp [hid]
  have hstep1 : step1_check_reply db msg = (db, false) := by
    rw [step1_check_reply, hp]
    rw [if_pos (pyTruthyNat_some hpnz)]
    simp only [Option.getD_some]
    rw [hlookup]
  refine ⟨hlookup, hstep1, ?_⟩
  rw [three_step_classification, hstep1]
  rfl

/-- Parent row stored WITHOUT a thread (it was classified `other`). -/
def parentRowC10 : MessageRow :=
  { message_id := 7, topic_id := 10, thread_id := none,
    parent_message_id := none, classification_id := some "other",
    message_text := "Как дела?", created_at := 10,
    processed := some true }

/-- Unprocessed reply to the threadless parent. -/
def replyRowC10 : MessageRow :=
  { message_id := 8, topic_id := 10, thread_id := none,
    parent_message_id := some 7, classification_id := none,
    message_text := "Нормально", created_at := 20,
    processed := some false }

/-- Store with the threadless parent and its unprocessed reply. -/
def dbC10 : Db := { messages := [parentRowC10, replyRowC10], threads := [] }

/-- C10 witness: the theorem applied to the concrete store. -/
theorem C10_witness :
    get_message_thread_by_parent dbC10 7 = none ∧
    step1_check_reply dbC10 replyRowC10 = (dbC10, false) ∧
    three_step_classification dbC10 replyRowC10 (.error ()) (.error ()) 99 =
      steps23_classification dbC10 replyRowC10 (.error ()) (.error ()) 99 :=
  C10_parent_without_thread dbC10 replyRowC10 7 (.error ()) (.error ()) 99
    (by decide) (by decide) ⟨parentRowC10, by decide, by decide⟩ (by decide)

/-! ## Claim C3 -/

theorem rowsWithId_batchSlingApply (k : Nat) :
    ∀ (batch : List MessageRow) (db : Db) (rs : List SlingResult),
      k ∉ batch.map (·.message_id) →
      rowsWithId (batchSlingApply db rs batch).1 k = rowsWithId db k := by
  intro batch
  induction batch with
  | nil =>
      intro db rs _
      rfl
  | cons m rest ih =>
      intro db rs h
      rw [List.map_cons, List.mem_cons] at h
      push_neg at h
      obtain ⟨hkm, hkrest⟩ := h
      cases rs with
      | nil =>
          simp only [batchSlingApply]
          exact ih db [] hkrest
      | cons r rs' =>
          simp only [batchSlingApply]
          split
          · split
            · rename_i t hth
              rw [ih _ rs' hkrest]
              exact rowsWithId_update_other k m.message_id r.thread_id
                (some t.classification_id) hkm
            · exact ih db rs' hkrest
          · exact ih db rs' hkrest

/-- C3: thread label authority in step 2.
Batched path: when the head message's sling result is related with a
truthy thread id that resolves to thread `t`, the message's stored row
carries THE THREAD's label (`t.classification_id`), the returned thread
id, and `processed = TRUE` — whatever confidence the AI reported; and
when the returned id does not resolve, the message is pushed onto the
remaining list (headed for step 3) with the store untouched for it.
Individual path: the same two facts for `_step2_semantic_sling`, and the
unresolved case proceeds to step 3 inside `steps23_classification`. -/
theorem C3_thread_label_authority :
    (∀ (db : Db) (r : SlingResult) (rs : List SlingResult) (m : MessageRow)
        (rest : List MessageRow) (tid : Nat) (t : ThreadRow),
      r.related = true → r.thread_id = some tid → tid ≠ 0 →
      get_thread_by_id db tid = some t → t.classification_id ≠ "" →
      m.message_id ∉ rest.map (·.message_id) →
      ∀ row ∈ (batchSlingApply db (r :: rs) (m :: rest)).1.messages,
        row.message_id = m.message_id →
          row.thread_id = some tid ∧
            row.classification_id = some t.classification_id ∧
            row.processed = some true) ∧
    (∀ (db : Db) (r : SlingResult) (rs : List SlingResult) (m : MessageRow)
        (rest : List MessageRow),
      r.related = true → pyTruthyNat r.thread_id = true →
      get_thread_by_id db (r.thread_id.getD 0) = none →
      batchSlingApply db (r :: rs) (m :: rest) =
        ((batchSlingApply db rs rest).1, (batchSlingApply db rs rest).2.1,
          m :: (batchSlingApply db rs rest).2.2)) ∧
    (∀ (db : Db) (msg : MessageRow) (tid : Nat) (t : ThreadRow)
        (oS : Except Unit (List Char)),
      (semantic_sling_schema_c oS).related = true →
      (semantic_sling_schema_c oS).thread_id = some tid → tid ≠ 0 →
      get_thread_by_id db tid = some t → t.classification_id ≠ "" →
      (step2_semantic_sling db msg oS).2 = true ∧
      ∀ row ∈ (step2_semantic_sling db msg oS).1.messages,
        row.message_id = msg.message_id →
          row.thread_id = some tid ∧
            row.classification_id = some t.classification_id ∧
            row.processed = some true) ∧
    (∀ (db : Db) (msg : MessageRow) (oS oC : Except Unit (List Char)) (now : Nat),
      get_thread_by_id db ((semantic_sling_schema_c oS).thread_id.getD 0) = none →
      step2_semantic_sling db msg oS = (db, false) ∧
      steps23_classification db msg oS oC now =
        (step3_new_entity_classification db msg
          (classify_message_schema_b oC) now, 2)) := by
  refine ⟨?_, ?_, ?_, ?_⟩
  · intro db r rs m rest tid t hrel htid htidnz hth hcls hnotin row hrow hid
    have hcond : (r.related && pyTruthyNat r.thread_id) = true := by
      rw [hrel, htid, pyTruthyNat_some htidnz]
      rfl
    have hgetd : r.thread_id.getD 0 = tid := by rw [htid]; rfl
    rw [batchSlingApply] at hrow
    rw [if_pos hcond, hgetd, hth] at hrow
    simp only at hrow
    have hpres := rowsWithId_batchSlingApply m.message_id rest
      (update_message_thread db m.message_id r.thread_id
        (some t.classification_id)).1 rs hnotin
    have hrow' : row ∈ rowsWithId (batchSlingApply
        (update_message_thread db m.message_id r.thread_id
          (some t.classification_id)).1 rs rest).1 m.message_id :=
      mem_rowsWithId.mpr ⟨hrow, hid⟩
    rw [hpres] at hrow'
    obtain ⟨hmem, -⟩ := mem_rowsWithId.mp hrow'
    obtain ⟨ht, hpr, hc⟩ := update_row_fields hmem hid
    rw [htid] at ht
    exact ⟨ht, hc (pyTruthyStr_some hcls), hpr⟩
  · intro db r rs m rest hrel htr hth
    have hcond : (r.related && pyTruthyNat r.thread_id) = true := by
      rw [hrel, htr]
      rfl
    rw [batchSlingApply, if_pos hcond, hth]
  · intro db msg tid t oS hrel htid htidnz hth hcls
    have hcond : ((semantic_sling_schema_c oS).related &&
        pyTruthyNat (semantic_sling_schema_c oS).thread_id) = true := by
      rw [hrel, htid, pyTruthyNat_some htidnz]
      rfl
    have hgetd : (semantic_sling_schema_c oS).thread_id.getD 0 = tid := by
      rw [htid]; rfl
    have hstep : step2_semantic_sling db msg oS =
        ((update_message_thread db msg.message_id
          (semantic_sling_schema_c oS).thread_id
          (some t.classification_id)).1, true) := by
      rw [step2_semantic_sling]
      rw [if_pos hcond, hgetd, hth]
    rw [hstep]
    refine ⟨rfl, ?_⟩
    intro row hrow hid
    obtain ⟨ht, hpr, hc⟩ := update_row_fields hrow hid
    rw [htid] at ht
    exact ⟨ht, hc (pyTruthyStr_some hcls), hpr⟩
  · intro db msg oS oC now hth
    have hstep : step2_semantic_sling db msg oS = (db, false) := by
      rw [step2_semantic_sling]
      by_cases hcond : ((semantic_sling_schema_c oS).related &&
          pyTruthyNat (semantic_sling_schema_c oS).thread_id) = true
      · rw [if_pos hcond, hth]
      · rw [if_neg hcond]
    refine ⟨hstep, ?_⟩
    rw [steps23_classification, hstep]
    rfl

/-- A `blocker` thread. -/
def threadRowC3 : ThreadRow :=
  { thread_id := 1, title := "Проблема с деплоем", classification_id := "blocker",
    created_at := 5, is_active := true }

/-- An unprocessed message. -/
def msgRowC3 : MessageRow :=
  { message_id := 300, topic_id := 20, thread_id := none,
    parent_message_id := none, classification_id := none,
    message_text := "Деплой опять упал", created_at := 50,
    processed := some false }

/-- Store with the thread and the unprocessed message. -/
def dbC3 : Db := { messages := [msgRowC3], threads := [threadRowC3] }

/-- An AI sling result linking message 300 to thread 1 (its own opinion of
the label is irrelevant; only `related`/`thread_id` are read). -/
def slingResC3 : SlingResult :=
  { message_id := 300, related := true, thread_id := some 1,
    confidence := ratLit 9 10 }

/-- C3 witness: the theorem applied to the concrete store — the linked
message inherits the THREAD's `blocker` label on both the batched and the
individual path. -/
theorem C3_witness :
    (∀ row ∈ (batchSlingApply dbC3 [slingResC3] [msgRowC3]).1.messages,
      row.message_id = msgRowC3.message_id →
        row.thread_id = some 1 ∧ row.classification_id = some "blocker" ∧
          row.processed = some true) ∧
    ((step2_semantic_sling dbC3 msgRowC3
        (.ok "\"related\": true, \"thread_id\": 1".data)).2 = true) :=
  ⟨C3_thread_label_authority.1 dbC3 slingResC3 [] msgRowC3 [] 1 threadRowC3
      (by decide) (by decide) (by decide) (by decide) (by decide) (by decide),
   (C3_thread_label_authority.2.2.1 dbC3 msgRowC3 1 threadRowC3
      (.ok "\"related\": true, \"thread_id\": 1".data)
      (by decide) (by decide) (by decide) (by decide) (by decide)).1⟩

/-! ## Claim C9 -/

theorem pyStrip_of_ends (a b : Char) (l : List Char)
    (ha : isPySpace a = false) (hb : isPySpace b = false) :
    pyStrip (a :: l ++ [b]) = a :: l ++ [b] := by
  rw [pyStrip]
  have h1 : (a :: (l ++ [b])).dropWhile isPySpace = a :: (l ++ [b]) := by
    simp [List.dropWhile_cons, ha]
  rw [show a :: l ++ [b] = a :: (l ++ [b]) from rfl, h1]
  have hrev : (a :: (l ++ [b])).reverse = b :: (l.reverse ++ [a]) := by
    simp
  rw [hrev]
  have h2 : (b :: (l.reverse ++ [a])).dropWhile isPySpace
      = b :: (l.reverse ++ [a]) := by
    simp [List.dropWhile_cons, hb]
  rw [h2, ← hrev, List.reverse_reverse]

theorem pyEndsWith_append (s t : List Char) :
    pyEndsWith (s ++ t) t = true := by
  rw [pyEndsWith, List.reverse_append]
  rw [List.isPrefixOf_iff_prefix]
  exact List.prefix_append _ _

/-- C9: parsing resilience of the step-3 classification response.
(1) Code-fence markers around the payload are stripped: cleaning
`` ```json <payload>``` `` yields exactly the stripped payload.
(2) When strict JSON decoding fails outright (`json.JSONDecodeError`),
the parser falls back to regex extraction over the original response.
(3) A result item missing any of the required fields is replaced by the
guaranteed-safe default — label `other`, confidence 0, no title — rather
than propagating a failure. -/
theorem C9_parsing_resilience :
    (∀ s : List Char,
      cleanResponse ("```json".data ++ s ++ "```".data) = pyStrip s) ∧
    (∀ response : List Char,
      parse_batch_classification_response none response
        = parse_with_regex response) ∧
    (∀ fields : List (String × JValue),
      (jHasKey fields "message_index" && jHasKey fields "classification" &&
        jHasKey fields "confidence") = false →
      validateClassificationItem fields
        = some { classification := "other", confidence := 0, title := none }) := by
  refine ⟨?_, ?_, ?_⟩
  · intro s
    have hshape : "```json".data ++ s ++ "```".data
        = '`' :: ("``json".data ++ s ++ "``".data) ++ ['`'] := by
      rw [show "```json".data = '`' :: "``json".data from rfl,
          show "```".data = "``".data ++ ['`'] from rfl]
      simp
    have hc1 : pyStrip ("```json".data ++ s ++ "```".data)
        = "```json".data ++ s ++ "```".data := by
      calc pyStrip ("```json".data ++ s ++ "```".data)
          = pyStrip ('`' :: ("``json".data ++ s ++ "``".data) ++ ['`']) := by
            rw [hshape]
        _ = '`' :: ("``json".data ++ s ++ "``".data) ++ ['`'] :=
            pyStrip_of_ends '`' '`' _ (by decide) (by decide)
        _ = "```json".data ++ s ++ "```".data := hshape.symm
    have hpre : pyStartsWith ("```json".data ++ s ++ "```".data)
        "```json".data = true := by
      rw [pyStartsWith, List.append_assoc, List.isPrefixOf_iff_prefix]
      exact List.prefix_append _ _
    have hdrop : ("```json".data ++ s ++ "```".data).drop 7
        = s ++ "```".data := by
      rw [List.append_assoc]
      rw [show (7 : Nat) = ("```json".data).length from rfl]
      exact List.drop_left _ _
    have hends : pyEndsWith (s ++ "```".data) "```".data = true :=
      pyEndsWith_append s "```".data
    have htake : (s ++ "```".data).take ((s ++ "```".data).length - 3) = s := by
      rw [List.length_append]
      rw [show ("```".data).length = 3 from rfl]
      rw [Nat.add_sub_cancel]
      exact List.take_left _ _
    simp only [cleanResponse, hc1, hpre, hdrop, hends, eq_self_iff_true,
      if_true, htake]
  · intro response
    rfl
  · intro fields h
    rw [validateClassificationItem, if_neg]
    rw [h]
    exact Bool.false_ne_true

/-- C9 witness: the missing-field default applied to an item lacking
`message_index` and `confidence`. -/
theorem C9_witness :
    ((jHasKey [("classification", JValue.str "goal")] "message_index" &&
      jHasKey [("classification", JValue.str "goal")] "classification" &&
      jHasKey [("classification", JValue.str "goal")] "confidence") = false) ∧
    validateClassificationItem [("classification", JValue.str "goal")]
      = some { classification := "other", confidence := 0, title := none } :=
  ⟨by decide,
   C9_parsing_resilience.2.2 [("classification", JValue.str "goal")] (by decide)⟩

/-! ## Claim C1 -/

theorem groupByTopic_topic (msgs : List MessageRow) :
    ∀ tl ∈ groupByTopic msgs, ∀ m ∈ tl.2, m.topic_id = tl.1 := by
  rw [groupByTopic]
  suffices h : ∀ acc : List (Nat × List MessageRow),
      (∀ tl ∈ acc, ∀ m ∈ tl.2, m.topic_id = tl.1) →
      ∀ tl ∈ msgs.foldl (fun acc m =>
        if acc.any (fun g => g.1 == m.topic_id) then
          acc.map (fun g => if g.1 == m.topic_id then (g.1, g.2 ++ [m]) else g)
        else acc ++ [(m.topic_id, [m])]) acc,
        ∀ m ∈ tl.2, m.topic_id = tl.1 by
    exact h [] (by simp)
  induction msgs with
  | nil =>
      intro acc hacc
      simpa using hacc
  | cons m rest ih =>
      intro acc hacc
      rw [List.foldl_cons]
      apply ih
      by_cases hin : acc.any (fun g => g.1 == m.topic_id)
      · rw [if_pos hin]
        intro tl htl mm hmm
        rw [List.mem_map] at htl
        obtain ⟨g, hg, htl⟩ := htl
        by_cases hgt : (g.1 == m.topic_id) = true
        · rw [if_pos hgt] at htl
          subst htl
          simp only at hmm ⊢
          rw [List.mem_append] at hmm
          rcases hmm with hold | hnew
          · exact hacc g hg mm hold
          · rw [List.mem_singleton] at hnew
            subst hnew
            exact (eq_of_beq hgt).symm
        · rw [if_neg hgt] at htl
          subst htl
          exact hacc g hg mm hmm
      · rw [if_neg hin]
        intro tl htl mm hmm
        rw [List.mem_append] at htl
        rcases htl with hold | hnew
        · exact hacc tl hold mm hmm
        · rw [List.mem_singleton] at hnew
          subst hnew
          rw [List.mem_singleton] at hmm
          subst hmm
          rfl

/-- C1 amended (spec-modelled candidate query): the engine groups
unprocessed messages by topic — every message of the group keyed `t` has
`topic_id = t` — and the candidate threads fetched for that group via the
topic-scoped query all have a member message in topic `t`; so the
candidate set offered to the sling prompt is filtered to the group's own
topic before the prompt is built.  (What the code does NOT do is validate
the AI's returned thread id against this candidate set — see the
counterexample.) -/
theorem C1_amended (db : Db) (t : Nat) (l : List MessageRow) (now : Nat)
    (hgroup : (t, l) ∈ groupByTopic (get_unprocessed_messages db)) :
    (∀ m ∈ l, m.topic_id = t) ∧
    (∀ th ∈ get_active_threads_with_messages_for_topic db t now 7,
      ∃ mm ∈ db.messages, mm.thread_id = some th.thread_id ∧
        mm.topic_id = t) := by
  constructor
  · intro m hm
    exact groupByTopic_topic (get_unprocessed_messages db) (t, l) hgroup m hm
  · intro th hth
    rw [get_active_threads_with_messages_for_topic, List.mem_map] at hth
    obtain ⟨t0, ht0, hth⟩ := hth
    rw [List.mem_filter] at ht0
    obtain ⟨-, hcond⟩ := ht0
    rw [Bool.and_eq_true, List.any_eq_true] at hcond
    obtain ⟨-, mm, hmm, hmatch⟩ := hcond
    rw [Bool.and_eq_true] at hmatch
    refine ⟨mm, hmm, ?_, ?_⟩
    · rw [← hth]
      exact eq_of_beq hmatch.1
    · exact eq_of_beq hmatch.2

/-- Member message of thread 1 living in topic 10. -/
def memberRowT10 : MessageRow :=
  { message_id := 100, topic_id := 10, thread_id := some 1,
    parent_message_id := none, classification_id := some "goal",
    message_text := "Бот для ПТСР: план", created_at := 5,
    processed := some true }

/-- Member message of thread 2 living in topic 20. -/
def memberRowT20 : MessageRow :=
  { message_id := 200, topic_id := 20, thread_id := some 2,
    parent_message_id := none, classification_id := some "goal",
    message_text := "Чат-бот поддержки: план", created_at := 6,
    processed := some true }

/-- Unprocessed topic-20 message that the manipulated response links away. -/
def unprocRowAC1 : MessageRow :=
  { message_id := 300, topic_id := 20, thread_id := none,
    parent_message_id := none, classification_id := none,
    message_text := "Обсудим бота", created_at := 50,
    processed := some false }

/-- Second unprocessed topic-20 message (the sling path needs a batch of
at least two). -/
def unprocRowBC1 : MessageRow :=
  { message_id := 301, topic_id := 20, thread_id := none,
    parent_message_id := none, classification_id := none,
    message_text := "Как дела?", created_at := 51,
    processed := some false }

/-- Topic-10 thread. -/
def threadT10C1 : ThreadRow :=
  { thread_id := 1, title := "Бот для ПТСР", classification_id := "goal",
    created_at := 5, is_active := true }

/-- Topic-20 thread. -/
def threadT20C1 : ThreadRow :=
  { thread_id := 2, title := "Чат-бот поддержки", classification_id := "goal",
    created_at := 6, is_active := true }

/-- Store with one thread per topic and two unprocessed topic-20
messages. -/
def dbC1 : Db :=
  { messages := [memberRowT10, memberRowT20, unprocRowAC1, unprocRowBC1],
    threads := [threadT10C1, threadT20C1] }

/-- A decoded sling response naming thread 1 — a thread NOT among the
topic-20 candidates — for message 300. -/
def slingJsonC1 : JValue :=
  .obj [("results", .arr
    [.obj [("message_id", .num 300), ("related", .bool true),
           ("thread_id", .num 1), ("confidence", .num (ratLit 9 10))],
     .obj [("message_id", .num 301), ("related", .bool false),
           ("thread_id", .null), ("confidence", .num (ratLit 1 10))]])]

/-- C1 counterexample: thread 1's member messages all live in topic 10 and
the topic-20 candidate list contains only thread 2, yet when the AI
response names thread 1 for topic-20 message 300, the engine links the
message to thread 1 — `_batch_step2_semantic_sling` resolves the returned
id via `get_thread_by_id` without checking it against the candidate set,
so a message in topic Y IS assigned to a thread whose member messages
belong to topic X. -/
theorem C1_counterexample :
    (∀ mm ∈ dbC1.messages, mm.thread_id = some 1 → mm.topic_id = 10) ∧
    ((get_active_threads_with_messages_for_topic dbC1 20 60 7).map
      (·.thread_id) = [2]) ∧
    (((batch_step2_semantic_sling dbC1 [unprocRowAC1, unprocRowBC1]
        (get_active_threads_with_messages_for_topic dbC1 20 60 7)
        (.ok (some slingJsonC1))).1.messages.filter
          (fun r => r.message_id == 300)).map
      (fun r => (r.thread_id, r.classification_id)) = [(some 1, some "goal")]) :=
  ⟨by decide, by decide, by decide⟩

/-- C1 witness: the amended theorem applied to the concrete store (its
unprocessed messages group into the single topic-20 bucket). -/
theorem C1_witness :
    ((20, [unprocRowAC1, unprocRowBC1]) ∈
      groupByTopic (get_unprocessed_messages dbC1)) ∧
    (∀ m ∈ [unprocRowAC1, unprocRowBC1], m.topic_id = 20) ∧
    (∀ th ∈ get_active_threads_with_messages_for_topic dbC1 20 60 7,
      ∃ mm ∈ dbC1.messages, mm.thread_id = some th.thread_id ∧
        mm.topic_id = 20) :=
  ⟨by decide,
   (C1_amended dbC1 20 [unprocRowAC1, unprocRowBC1] 60 (by decide)).1,
   (C1_amended dbC1 20 [unprocRowAC1, unprocRowBC1] 60 (by decide)).2⟩

/-! ## Claim C8 -/

/-- The order in which `send_request` tries model keys: the preferred
key, then every other registered key in registration order. -/
def sweepKeys (models : List (String × String)) (k : String) : List String :=
  k :: (models.map (·.1)).filter (fun x => x ≠ k)

theorem sendRequestGo_all_error (models : List (String × String)) :
    ∀ (keys : List String) (outcomes : List (Except String String))
      (lastE : String),
      (∀ kk ∈ keys, kk ∈ models.map (·.1)) →
      (∀ o ∈ outcomes, ∃ e, o = .error e) →
      (sendRequestGo models keys outcomes lastE).attempted = keys ∧
      (∃ e, (sendRequestGo models keys outcomes lastE).result
        = .error ("Все AI модели недоступны. Последняя ошибка: " ++ e)) ∧
      (∀ o ∈ (sendRequestGo models keys outcomes lastE).remaining,
        ∃ e, o = .error e) := by
  intro keys
  induction keys with
  | nil =>
      intro outcomes lastE _ hall
      exact ⟨rfl, ⟨lastE, rfl⟩, hall⟩
  | cons k ks ih =>
      intro outcomes lastE hres hall
      have hk : k ∈ models.map (·.1) := hres k (List.mem_cons_self _ _)
      have hfind : (models.find? (fun m => m.1 == k)).isSome := by
        rw [List.find?_isSome]
        rw [List.mem_map] at hk
        obtain ⟨m, hm, hmk⟩ := hk
        exact ⟨m, hm, by simp [hmk]⟩
      obtain ⟨mv, hmv⟩ := Option.isSome_iff_exists.mp hfind
      have hres' : ∀ kk ∈ ks, kk ∈ models.map (·.1) :=
        fun kk hkk => hres kk (List.mem_cons_of_mem _ hkk)
      cases outcomes with
      | nil =>
          obtain ⟨iha, ihr, ihrem⟩ :=
            ih [] "backend unavailable" hres' (by simp)
          rw [sendRequestGo, hmv]
          exact ⟨by simp [iha], ihr, ihrem⟩
      | cons o rest =>
          obtain ⟨e, he⟩ := hall o (List.mem_cons_self _ _)
          subst he
          have hall' : ∀ o ∈ rest, ∃ e, o = .error e :=
            fun o ho => hall o (List.mem_cons_of_mem _ ho)
          obtain ⟨iha, ihr, ihrem⟩ := ih rest e hres' hall'
          rw [sendRequestGo, hmv]
          exact ⟨by simp [iha], ihr, ihrem⟩

theorem send_request_all_error (models : List (String × String)) (k : String)
    (outcomes : List (Except String String))
    (hk : k ∈ models.map (·.1))
    (hall : ∀ o ∈ outcomes, ∃ e, o = .error e) :
    (send_request models (some k) outcomes).attempted = sweepKeys models k ∧
    (∃ e, (send_request models (some k) outcomes).result
      = .error ("Все AI модели недоступны. Последняя ошибка: " ++ e)) ∧
    (∀ o ∈ (send_request models (some k) outcomes).remaining,
      ∃ e, o = .error e) := by
  cases models with
  | nil => simp at hk
  | cons hd tl =>
      rw [send_request]
      simp only [Option.getD_some]
      exact sendRequestGo_all_error (hd :: tl) (sweepKeys (hd :: tl) k)
        outcomes "None"
        (by
          intro kk hkk
          rw [sweepKeys, List.mem_cons] at hkk
          rcases hkk with h | h
          · rw [h]; exact hk
          · exact List.mem_of_mem_filter h)
        hall

theorem send_request_first_success (models : List (String × String))
    (k : String) (v : String) (rest : List (Except String String))
    (hk : k ∈ models.map (·.1)) :
    send_request models (some k) (.ok v :: rest)
      = { result := .ok v, attempted := [k], remaining := rest } := by
  cases models with
  | nil => simp at hk
  | cons hd tl =>
      rw [send_request]
      simp only [Option.getD_some]
      have hfind : ((hd :: tl).find? (fun m => m.1 == k)).isSome := by
        rw [List.find?_isSome]
        rw [List.mem_map] at hk
        obtain ⟨m, hm, hmk⟩ := hk
        exact ⟨m, hm, by simp [hmk]⟩
      obtain ⟨mv, hmv⟩ := Option.isSome_iff_exists.mp hfind
      rw [sendRequestGo, hmv]

/-- C8 counterexample: with two registered models and an always-failing
backend, the attempted-model trace of `send_request_with_retry` is
`a, b, a, b, a, b` — the second model is tried after a SINGLE attempt of
the first — and not the claimed per-model-retry order `a, a, a, b, b, b`
(first model retried up to the maximum before the next model). -/
theorem C8_counterexample :
    ((send_request_with_retry [("a", "pa"), ("b", "pb")] none
      (List.replicate 6 (.error "boom"))).attempted
        = ["a", "b", "a", "b", "a", "b"]) ∧
    ((send_request_with_retry [("a", "pa"), ("b", "pb")] none
      (List.replicate 6 (.error "boom"))).attempted
        ≠ ["a", "a", "a", "b", "b", "b"]) :=
  ⟨by decide, by decide⟩

/-- C8 amended: a completion request sweeps the FULL model list — the
preferred model (or the first registered one) first, then every other
registered model in registration order — once per attempt, returning the
first success; the WHOLE sweep (not each model) is retried up to
`max_retries = 3` times with exponential backoff `2^attempt` seconds
between failed sweeps; only when every sweep has failed does the call
fail upward, wrapping the last sweep's error, which itself carries the
last underlying backend error message. -/
theorem C8_amended (models : List (String × String)) (k v : String)
    (outcomes rest : List (Except String String))
    (hk : k ∈ models.map (·.1))
    (hall : ∀ o ∈ outcomes, ∃ e, o = .error e) :
    ((send_request models (some k) outcomes).attempted = sweepKeys models k ∧
      ∃ e, (send_request models (some k) outcomes).result
        = .error ("Все AI модели недоступны. Последняя ошибка: " ++ e)) ∧
    (send_request models (some k) (.ok v :: rest)
      = { result := .ok v, attempted := [k], remaining := rest }) ∧
    ((send_request_with_retry models (some k) outcomes).attempted
        = sweepKeys models k ++ sweepKeys models k ++ sweepKeys models k ∧
      (send_request_with_retry models (some k) outcomes).sleeps = [1, 2] ∧
      ∃ e, (send_request_with_retry models (some k) outcomes).result
        = .error ("Все 3 попыток не удались. Последняя ошибка: " ++ e)) ∧
    (send_request_with_retry [("a", "pa")] none
        (List.replicate 3 (.error "boom"))
      = { result := .error ("Все 3 попыток не удались. Последняя ошибка: " ++
            "Все AI модели недоступны. Последняя ошибка: boom"),
          attempted := ["a", "a", "a"], sleeps := [1, 2] }) := by
  obtain ⟨h1a, h1r, h1rem⟩ := send_request_all_error models k outcomes hk hall
  refine ⟨⟨h1a, h1r⟩, send_request_first_success models k v rest hk, ?_, by decide⟩
  obtain ⟨h2a, h2r, h2rem⟩ := send_request_all_error models k
    (send_request models (some k) outcomes).remaining hk h1rem
  obtain ⟨h3a, h3r, h3rem⟩ := send_request_all_error models k
    (send_request models (some k)
      (send_request models (some k) outcomes).remaining).remaining hk h2rem
  obtain ⟨e1, he1⟩ := h1r
  obtain ⟨e2, he2⟩ := h2r
  obtain ⟨e3, he3⟩ := h3r
  rw [send_request_with_retry]
  rw [show (3 : Nat) = 2 + 1 from rfl]
  rw [sendRequestRetryGo, he1]
  simp only [Nat.succ_ne_zero, if_false, ite_false]
  rw [sendRequestRetryGo, he2]
  simp only [Nat.succ_ne_zero, if_false, ite_false]
  rw [sendRequestRetryGo, he3]
  simp only [if_pos rfl, ite_true]
  refine ⟨?_, ?_, ?_⟩
  · simp [h1a, h2a, h3a]
  · rfl
  · exact ⟨"Все AI модели недоступны. Последняя ошибка: " ++ e3, rfl⟩

/-- C8 witness: the amended theorem applied to two concrete models and a
failing backend oracle. -/
theorem C8_witness :
    ((send_request [("a", "pa"), ("b", "pb")] (some "a")
        (List.replicate 6 (.error "boom"))).attempted
      = sweepKeys [("a", "pa"), ("b", "pb")] "a") ∧
    ((send_request_with_retry [("a", "pa"), ("b", "pb")] (some "a")
        (List.replicate 6 (.error "boom"))).sleeps = [1, 2]) := by
  have h := C8_amended [("a", "pa"), ("b", "pb")] "a" "v"
    (List.replicate 6 (.error "boom")) [] (by decide)
    (by
      intro o ho
      rw [List.eq_of_mem_replicate ho]
      exact ⟨"boom", rfl⟩)
  exact ⟨h.1.1, h.2.2.1.2.1⟩

/-! ## Claim C5 -/

theorem processedInDb_step1_mono {db : Db} {k : Nat} (m : MessageRow)
    (h : ProcessedInDb db k) :
    ProcessedInDb (step1_check_reply db m).1 k := by
  rw [step1_check_reply]
  split
  · cases hl : get_message_thread_by_parent db (m.parent_message_id.getD 0) with
    | none => exact h
    | some pt => exact processedInDb_update_mono _ _ _ h
  · exact h

theorem step1_handled_processed {db : Db} {m : MessageRow}
    (hh : (step1_check_reply db m).2 = true) :
    ProcessedInDb (step1_check_reply db m).1 m.message_id := by
  rw [step1_check_reply] at hh ⊢
  split at hh
  · rename_i hcond
    split at hh
    · rw [if_pos hcond]
      exact processedInDb_update_self _ _ _ _
    · simp at hh
  · rename_i hcond
    rw [if_neg hcond]
    simp at hh

theorem processedInDb_step2_mono {db : Db} {k : Nat} (m : MessageRow)
    (o : Except Unit (List Char)) (h : ProcessedInDb db k) :
    ProcessedInDb (step2_semantic_sling db m o).1 k := by
  rw [step2_semantic_sling]
  split
  · split
    · exact processedInDb_update_mono _ _ _ h
    · exact h
  · exact h

theorem step2_linked_processed {db : Db} {m : MessageRow}
    {o : Except Unit (List Char)}
    (hh : (step2_semantic_sling db m o).2 = true) :
    ProcessedInDb (step2_semantic_sling db m o).1 m.message_id := by
  rw [step2_semantic_sling] at hh ⊢
  split at hh
  · rename_i hcond
    split at hh
    · rw [if_pos hcond]
      exact processedInDb_update_self _ _ _ _
    · simp at hh
  · rename_i hcond
    rw [if_neg hcond]
    simp at hh

theorem step3indiv_processed (db : Db) (m : MessageRow)
    (r : ClassifyResultI) (now : Nat) :
    ProcessedInDb (step3_new_entity_classification db m r now) m.message_id := by
  rw [step3_new_entity_classification]
  split
  · simp only [create_thread]
    rw [if_pos (freshThreadId_pos db)]
    exact processedInDb_update_self _ _ _ _
  · exact processedInDb_update_self _ _ _ _

theorem step3indiv_mono {db : Db} {k : Nat} (m : MessageRow)
    (r : ClassifyResultI) (now : Nat) (h : ProcessedInDb db k) :
    ProcessedInDb (step3_new_entity_classification db m r now) k := by
  rw [step3_new_entity_classification]
  split
  · simp only [create_thread]
    split
    · exact processedInDb_update_mono _ _ _
        (processedInDb_create_thread _ _ _ h)
    · exact processedInDb_create_thread _ _ _ h
  · exact processedInDb_update_mono _ _ _ h

theorem steps23_processed (db : Db) (m : MessageRow)
    (o1 o2 : Except Unit (List Char)) (now : Nat) :
    ProcessedInDb (steps23_classification db m o1 o2 now).1 m.message_id := by
  rw [steps23_classification]
  by_cases hlinked : (step2_semantic_sling db m o1).2 = true
  · rw [if_pos hlinked]
    exact step2_linked_processed hlinked
  · rw [if_neg hlinked]
    exact step3indiv_processed _ _ _ _

theorem steps23_mono {db : Db} {k : Nat} (m : MessageRow)
    (o1 o2 : Except Unit (List Char)) (now : Nat) (h : ProcessedInDb db k) :
    ProcessedInDb (steps23_classification db m o1 o2 now).1 k := by
  rw [steps23_classification]
  split
  · exact processedInDb_step2_mono m o1 h
  · exact step3indiv_mono m _ now (processedInDb_step2_mono m o1 h)

theorem three_step_processed (db : Db) (m : MessageRow)
    (o1 o2 : Except Unit (List Char)) (now : Nat) :
    ProcessedInDb (three_step_classification db m o1 o2 now).1 m.message_id := by
  rw [three_step_classification]
  by_cases hh : (step1_check_reply db m).2 = true
  · rw [if_pos hh]
    exact step1_handled_processed hh
  · rw [if_neg hh]
    exact steps23_processed _ _ _ _ _

theorem three_step_mono {db : Db} {k : Nat} (m : MessageRow)
    (o1 o2 : Except Unit (List Char)) (now : Nat) (h : ProcessedInDb db k) :
    ProcessedInDb (three_step_classification db m o1 o2 now).1 k := by
  rw [three_step_classification]
  split
  · exact processedInDb_step1_mono m h
  · exact steps23_mono m o1 o2 now (processedInDb_step1_mono m h)

theorem fallback_mono {k : Nat} :
    ∀ (batch : List MessageRow) (db : Db) (oracles : List IndivOracle)
      (now : Nat), ProcessedInDb db k →
      ProcessedInDb (fallback_individual_processing db batch oracles now).1 k := by
  intro batch
  induction batch with
  | nil => intro db oracles now h; exact h
  | cons m rest ih =>
      intro db oracles now h
      rw [fallback_individual_processing]
      exact ih _ _ _ (three_step_mono m _ _ now h)

theorem fallback_all :
    ∀ (batch : List MessageRow) (db : Db) (oracles : List IndivOracle)
      (now : Nat), ∀ m ∈ batch,
      ProcessedInDb (fallback_individual_processing db batch oracles now).1
        m.message_id := by
  intro batch
  induction batch with
  | nil => intro db oracles now m hm; simp at hm
  | cons m0 rest ih =>
      intro db oracles now m hm
      rw [fallback_individual_processing]
      rw [List.mem_cons] at hm
      rcases hm with hm | hm
      · subst hm
        exact fallback_mono rest _ _ now (three_step_processed db m _ _ now)
      · exact ih _ _ _ m hm

theorem batch_step1_mono {k : Nat} :
    ∀ (batch : List MessageRow) (db : Db), ProcessedInDb db k →
      ProcessedInDb (batch_step1_replies db batch).1 k := by
  intro batch
  induction batch with
  | nil => intro db h; exact h
  | cons m rest ih =>
      intro db h
      rw [batch_step1_replies]
      exact ih _ (processedInDb_step1_mono m h)

theorem batch_step1_split :
    ∀ (batch : List MessageRow) (db : Db), ∀ m ∈ batch,
      ProcessedInDb (batch_step1_replies db batch).1 m.message_id ∨
        m ∈ (batch_step1_replies db batch).2 := by
  intro batch
  induction batch with
  | nil => intro db m hm; simp at hm
  | cons m0 rest ih =>
      intro db m hm
      rw [batch_step1_replies]
      rw [List.mem_cons] at hm
      rcases hm with hm | hm
      · subst hm
        by_cases hh : (step1_check_reply db m).2 = true
        · left
          exact batch_step1_mono rest _ (step1_handled_processed hh)
        · right
          simp only [hh]
          simp
      · rcases ih (step1_check_reply db m0).1 m hm with hp | hmem
        · left; exact hp
        · right
          split <;> simp [hmem]

theorem batchSlingApply_mono {k : Nat} :
    ∀ (batch : List MessageRow) (db : Db) (rs : List SlingResult),
      ProcessedInDb db k →
      ProcessedInDb (batchSlingApply db rs batch).1 k := by
  intro batch
  induction batch with
  | nil => intro db rs h; cases rs <;> exact h
  | cons m rest ih =>
      intro db rs h
      cases rs with
      | nil =>
          rw [batchSlingApply]
          exact ih _ _ h
      | cons r rs' =>
          rw [batchSlingApply]
          split
          · split
            · exact ih _ _ (processedInDb_update_mono _ _ _ h)
            · exact ih _ _ h
          · exact ih _ _ h

theorem batchSlingApply_split :
    ∀ (batch : List MessageRow) (db : Db) (rs : List SlingResult), ∀ m ∈ batch,
      ProcessedInDb (batchSlingApply db rs batch).1 m.message_id ∨
        m ∈ (batchSlingApply db rs batch).2.2 := by
  intro batch
  induction batch with
  | nil => intro db rs m hm; simp at hm
  | cons m0 rest ih =>
      intro db rs m hm
      rw [List.mem_cons] at hm
      cases rs with
      | nil =>
          rw [batchSlingApply]
          rcases hm with hm | hm
          · subst hm
            right
            simp
          · rcases ih db [] m hm with hp | hmem
            · left; exact hp
            · right; simp [hmem]
      | cons r rs' =>
          rw [batchSlingApply]
          split
          · split
            · rename_i t heq
              rcases hm with hm | hm
              · subst hm
                left
                exact batchSlingApply_mono rest _ rs'
                  (processedInDb_update_self _ _ _ _)
              · rcases ih _ rs' m hm with hp | hmem
                · left; exact hp
                · right; exact hmem
            · rcases hm with hm | hm
              · subst hm; right; simp
              · rcases ih db rs' m hm with hp | hmem
                · left; exact hp
                · right; simp [hmem]
          · rcases hm with hm | hm
            · subst hm; right; simp
            · rcases ih db rs' m hm with hp | hmem
              · left; exact hp
              · right; simp [hmem]

theorem batch_step2_mono {k : Nat} (db : Db) (batch : List MessageRow)
    (threads : List ThreadInfo) (o : Except Unit (Option JValue))
    (h : ProcessedInDb db k) :
    ProcessedInDb (batch_step2_semantic_sling db batch threads o).1 k := by
  rw [batch_step2_semantic_sling.eq_def]
  split
  · exact h
  · split
    · exact h
    · split
      · exact h
      · exact batchSlingApply_mono batch db _ h

theorem batch_step2_split (db : Db) (batch : List MessageRow)
    (threads : List ThreadInfo) (o : Except Unit (Option JValue)) :
    ∀ m ∈ batch,
      ProcessedInDb (batch_step2_semantic_sling db batch threads o).1
        m.message_id ∨
      m ∈ (batch_step2_semantic_sling db batch threads o).2.2 := by
  intro m hm
  rw [batch_step2_semantic_sling.eq_def]
  split
  · right; exact hm
  · split
    · right; exact hm
    · split
      · right; exact hm
      · exact batchSlingApply_split batch db _ m hm

theorem apply_classification_processed (db : Db) (m : MessageRow)
    (r : ClassificationResult) (now : Nat) :
    ProcessedInDb (apply_classification_result db m r now).1 m.message_id := by
  rw [apply_classification_result]
  split
  · simp only [create_thread]
    rw [if_pos (freshThreadId_pos db)]
    exact processedInDb_update_self _ _ _ _
  · exact processedInDb_update_self _ _ _ _

theorem apply_classification_mono {db : Db} {k : Nat} (m : MessageRow)
    (r : ClassificationResult) (now : Nat) (h : ProcessedInDb db k) :
    ProcessedInDb (apply_classification_result db m r now).1 k := by
  rw [apply_classification_result]
  split
  · simp only [create_thread]
    split
    · exact processedInDb_update_mono _ _ _
        (processedInDb_create_thread _ _ _ h)
    · exact processedInDb_create_thread _ _ _ h
  · exact processedInDb_update_mono _ _ _ h

theorem batchClassificationApply_mono {k : Nat} :
    ∀ (batch : List MessageRow) (db : Db) (rs : List ClassificationResult)
      (now : Nat), ProcessedInDb db k →
      ProcessedInDb (batchClassificationApply db rs batch now).1 k := by
  intro batch
  induction batch with
  | nil => intro db rs now h; cases rs <;> exact h
  | cons m rest ih =>
      intro db rs now h
      cases rs with
      | nil =>
          rw [batchClassificationApply]
          exact ih _ _ _ (processedInDb_update_mono _ _ _ h)
      | cons r rs' =>
          rw [batchClassificationApply]
          exact ih _ _ _ (apply_classification_mono m r now h)

theorem batchClassificationApply_all :
    ∀ (batch : List MessageRow) (db : Db) (rs : List ClassificationResult)
      (now : Nat), ∀ m ∈ batch,
      ProcessedInDb (batchClassificationApply db rs batch now).1
        m.message_id := by
  intro batch
  induction batch with
  | nil => intro db rs now m hm; simp at hm
  | cons m0 rest ih =>
      intro db rs now m hm
      rw [List.mem_cons] at hm
      cases rs with
      | nil =>
          rw [batchClassificationApply]
          rcases hm with hm | hm
          · subst hm
            exact batchClassificationApply_mono rest _ [] now
              (processedInDb_update_self _ _ _ _)
          · exact ih _ _ _ m hm
      | cons r rs' =>
          rw [batchClassificationApply]
          rcases hm with hm | hm
          · subst hm
            exact batchClassificationApply_mono rest _ rs' now
              (apply_classification_processed db m r now)
          · exact ih _ _ _ m hm

theorem batch_step3_mono {k : Nat} (db : Db) (batch : List MessageRow)
    (o : Except Unit (List Char × Option JValue))
    (indiv : List IndivOracle) (now : Nat) (h : ProcessedInDb db k) :
    ProcessedInDb (batch_step3_new_entities db batch o indiv now).1 k := by
  rw [batch_step3_new_entities.eq_def]
  split
  · exact h
  · split
    · exact fallback_mono batch db indiv now h
    · exact batchClassificationApply_mono batch db _ now h

theorem batch_step3_all (db : Db) (batch : List MessageRow)
    (o : Except Unit (List Char × Option JValue))
    (indiv : List IndivOracle) (now : Nat) :
    ∀ m ∈ batch,
      ProcessedInDb (batch_step3_new_entities db batch o indiv now).1
        m.message_id := by
  intro m hm
  rw [batch_step3_new_entities.eq_def]
  split
  · rename_i hempty
    rw [List.isEmpty_iff] at hempty
    subst hempty
    simp at hm
  · split
    · exact fallback_all batch db indiv now m hm
    · exact batchClassificationApply_all batch db _ now m hm

/-- C5: batch-failure degradation.
(1) The `except` handler of `process_batch` runs every message of the
failed batch through the individual three-step pipeline
(definitionally, it IS `_fallback_individual_processing` on the whole
batch), after which every stored row of every batch message is marked
processed — whatever the per-message AI oracle outcomes.
(2) Likewise, when the batched step-3 AI call itself raises
(`o3 = error`), `process_batch`'s normal body still leaves every batch
message processed via the internal per-message fallback. -/
theorem C5_batch_degradation (db : Db) (batch : List MessageRow)
    (threads : List ThreadInfo) (o2 : Except Unit (Option JValue))
    (indiv : List IndivOracle) (now : Nat) :
    (process_batch_on_exception db batch indiv now
      = fallback_individual_processing db batch indiv now) ∧
    (∀ m ∈ batch,
      ProcessedInDb (process_batch_on_exception db batch indiv now).1
        m.message_id) ∧
    (∀ m ∈ batch,
      ProcessedInDb (process_batch_body db batch threads o2 (.error ())
        indiv now).1 m.message_id) := by
  refine ⟨rfl, fun m hm => fallback_all batch db indiv now m hm, ?_⟩
  intro m hm
  rw [process_batch_body]
  rcases batch_step1_split batch db m hm with hp1 | hmem1
  · by_cases hempty1 : (batch_step1_replies db batch).2.isEmpty = true
    · rw [if_pos hempty1]
      exact hp1
    · rw [if_neg hempty1]
      have hp2 := batch_step2_mono (batch_step1_replies db batch).1
        (batch_step1_replies db batch).2 threads o2 hp1
      by_cases hempty2 : (batch_step2_semantic_sling
          (batch_step1_replies db batch).1 (batch_step1_replies db batch).2
          threads o2).2.2.isEmpty = true
      · rw [if_pos hempty2]
        exact hp2
      · rw [if_neg hempty2]
        exact batch_step3_mono _ _ _ indiv now hp2
  · have hne1 : (batch_step1_replies db batch).2.isEmpty = false := by
      rcases hmm : (batch_step1_replies db batch).2 with _ | ⟨a, l⟩
      · rw [hmm] at hmem1; simp at hmem1
      · rfl
    rw [hne1]
    simp only [Bool.false_eq_true, if_false]
    rcases batch_step2_split (batch_step1_replies db batch).1
        (batch_step1_replies db batch).2 threads o2 m hmem1 with hp2 | hmem2
    · by_cases hempty2 : (batch_step2_semantic_sling
          (batch_step1_replies db batch).1 (batch_step1_replies db batch).2
          threads o2).2.2.isEmpty = true
      · rw [if_pos hempty2]
        exact hp2
      · rw [if_neg hempty2]
        exact batch_step3_mono _ _ _ indiv now hp2
    · have hne2 : (batch_step2_semantic_sling (batch_step1_replies db batch).1
          (batch_step1_replies db batch).2 threads o2).2.2.isEmpty = false := by
        rcases hmm : (batch_step2_semantic_sling (batch_step1_replies db batch).1
            (batch_step1_replies db batch).2 threads o2).2.2 with _ | ⟨a, l⟩
        · rw [hmm] at hmem2; simp at hmem2
        · rfl
      rw [hne2]
      simp only [Bool.false_eq_true, if_false]
      exact batch_step3_all _ _ _ indiv now m hmem2

/-- First unprocessed message of the failed batch. -/
def rowAC5 : MessageRow :=
  { message_id := 400, topic_id := 10, thread_id := none,
    parent_message_id := none, classification_id := none,
    message_text := "Нужен рефакторинг", created_at := 60,
    processed := some false }

/-- Second unprocessed message of the failed batch. -/
def rowBC5 : MessageRow :=
  { message_id := 401, topic_id := 10, thread_id := none,
    parent_message_id := none, classification_id := none,
    message_text := "Ок", created_at := 61,
    processed := some false }

/-- Store holding the two-message batch. -/
def dbC5 : Db := { messages := [rowAC5, rowBC5], threads := [] }

/-- C5 witness: the theorem applied to a concrete two-message batch whose
AI calls all fail. -/
theorem C5_witness :
    ProcessedInDb (process_batch_on_exception dbC5 [rowAC5, rowBC5] [] 99).1
      rowAC5.message_id ∧
    ProcessedInDb (process_batch_body dbC5 [rowAC5, rowBC5] [] (.error ())
      (.error ()) [] 99).1 rowBC5.message_id :=
  ⟨(C5_batch_degradation dbC5 [rowAC5, rowBC5] [] (.error ()) [] 99).2.1
      rowAC5 (by decide),
   (C5_batch_degradation dbC5 [rowAC5, rowBC5] [] (.error ()) [] 99).2.2
      rowBC5 (by decide)⟩

end WeeklyDigestBot
